import Mathlib

/-!
Shallow embedding of the tpg-ship-sim core (typhoon power generation ship
simulator) and proofs about its natural-language specification.

Python floats are modelled as exact rationals (`ℚ`), unix times and typhoon
numbers as integers (`ℤ`), and the source's 0/1 integer flags as `ℕ`.
External library calls with no arithmetic content of their own
(geopy's `geodesic(...).km`, the wind-table lookup, `random.gauss`, and the
transcendental drag formulas using `log10`) are passed in as function
parameters or as already-computed work quantities, exactly at the boundary
where the source consumes their numeric results.

Sources embedded below:
  - `tpg_ship_sim/model/tpg_ship.py`   (class TPG_ship)
  - `tpg_ship_sim/model/forecaster.py` (class Forecaster)
  - `tpg_ship_sim/model/storage_base.py` (class Storage_base)
  - `tpg_ship_sim/model/support_ship.py` (class Support_ship)
-/

/-- Physical and behavioural parameters of the generation ship that the
energy model reads (a subset of the attributes set in `TPG_ship.__init__`). -/
structure TPGshipParams where
  max_storage : ℚ
  electric_propulsion_max_storage_wh : ℚ
  elect_trust_efficiency : ℚ
  MCH_to_elect_efficiency : ℚ
  elect_to_MCH_efficiency : ℚ
  generator_output_w : ℚ
  max_speed : ℚ
  max_speed_power : ℚ
  generating_speed_kt : ℚ
  generator_num : ℚ

namespace TPG_ship

/-- `TPG_ship.calculate_power_consumption` (tpg_ship.py lines 1001-1054).

`wind_trust_work` is the result of `calculate_trajectory_energy` (wind-table
lookup, bearings and trigonometry against external data) and
`generator_drag_unit_w` the result of `calculate_generator_drag_work`
(Prandtl–Schlichting friction via `log10`); both are taken as inputs here,
exactly as the source consumes their values. -/
def calculate_power_consumption (p : TPGshipParams) (gs_gene_judge : ℕ)
    (speed_kt wind_trust_work generator_drag_unit_w time_step : ℚ) : ℚ :=
  let generator_drag_work := p.generator_num * generator_drag_unit_w * time_step
  let hull_drag_work :=
    if gs_gene_judge = 1 then
      p.max_speed_power * (p.generating_speed_kt / p.max_speed) ^ 3 * time_step
    else
      p.max_speed_power * (speed_kt / p.max_speed) ^ 3 * time_step
  let typhoon_tracking_power :=
    hull_drag_work + generator_drag_work - wind_trust_work
  let typhoon_tracking_power' :=
    if typhoon_tracking_power < 0 then 0 else typhoon_tracking_power
  typhoon_tracking_power' / p.elect_trust_efficiency

/-- Result of the per-tick two-reservoir energy accounting. -/
structure EnergyAccounting where
  storage : ℚ
  electric_propulsion_storage_wh : ℚ
  loss_elect : ℚ
  gene_elect : ℚ
deriving DecidableEq, Repr

/-- The energy-accounting tail of `TPG_ship.get_next_ship_state`
(tpg_ship.py lines 2097-2184): consumption (`loss_work`), generation
(`gene_elect`), the two-reservoir update for the electric-propulsion buffer
and the main MCH storage, and the final upper clamp of the main storage.

`consumption_wh` is the value of `calculate_power_consumption(...)`;
the source multiplies it by `GS_loss_judge` to obtain `loss_work`. -/
def energy_state_update (p : TPGshipParams) (gs_gene_judge gs_loss_judge : ℕ)
    (consumption_wh storage electric_propulsion_storage_wh time_step : ℚ) :
    EnergyAccounting :=
  let loss_work := consumption_wh * (gs_loss_judge : ℚ)
  let gene_elect := p.generator_output_w * time_step * (gs_gene_judge : ℚ)
  let b := electric_propulsion_storage_wh
  let res : EnergyAccounting :=
    if gs_loss_judge = 1 then
      -- consuming: drain the propulsion buffer first
      if 0 ≤ b - loss_work / p.elect_trust_efficiency then
        { storage := storage
          electric_propulsion_storage_wh := b - loss_work / p.elect_trust_efficiency
          loss_elect := loss_work / p.elect_trust_efficiency
          gene_elect := gene_elect }
      else
        -- shortfall drawn from main storage through the MCH round trip;
        -- the source zeroes the buffer BEFORE it computes loss_elect, so the
        -- buffer term of loss_elect reads 0
        let loss_elect_trust := loss_work / p.elect_trust_efficiency - b
        { storage := storage - loss_elect_trust / p.MCH_to_elect_efficiency
          electric_propulsion_storage_wh := 0
          loss_elect := 0 + loss_elect_trust / p.MCH_to_elect_efficiency
          gene_elect := gene_elect }
    else if gs_gene_judge = 1 then
      -- generating: top up the propulsion buffer first
      if gene_elect < p.electric_propulsion_max_storage_wh - b then
        { storage := storage
          electric_propulsion_storage_wh := b + gene_elect
          loss_elect := loss_work
          gene_elect := 0 }
      else if b < p.electric_propulsion_max_storage_wh then
        { storage := storage
          electric_propulsion_storage_wh := p.electric_propulsion_max_storage_wh
          loss_elect := loss_work
          gene_elect :=
            (gene_elect - (p.electric_propulsion_max_storage_wh - b))
              * p.elect_to_MCH_efficiency }
      else
        { storage := storage
          electric_propulsion_storage_wh := b
          loss_elect := loss_work
          gene_elect := gene_elect * p.elect_to_MCH_efficiency }
    else
      { storage := storage
        electric_propulsion_storage_wh := b
        loss_elect := loss_work
        gene_elect := gene_elect }
  -- storage = storage + gene_elect, then the upper capacity clamp
  let storage2 := res.storage + res.gene_elect
  { res with
    storage := if p.max_storage < storage2 then p.max_storage else storage2 }

/-- `TPG_ship.get_next_position` (tpg_ship.py lines 1537-1614).
`geo` abstracts geopy's `geodesic(a, b).km`. -/
def get_next_position (geo : ℚ × ℚ → ℚ × ℚ → ℚ) (speed_kt time_step : ℚ)
    (ship_lat ship_lon target_lat target_lon : ℚ) : ℚ × ℚ :=
  let goal_now_distance := geo (ship_lat, ship_lon) (target_lat, target_lon)
  let advance_distance := speed_kt * 1.852 * time_step
  let lat_difference := target_lat - ship_lat
  let lon_difference := target_lon - ship_lon
  let distance_ratio :=
    if goal_now_distance ≠ 0 then advance_distance / goal_now_distance else 0
  if distance_ratio < 1 ∧ 0 < distance_ratio then
    (lat_difference * distance_ratio + ship_lat,
     lon_difference * distance_ratio + ship_lon)
  else
    (target_lat, target_lon)

end TPG_ship

namespace TPG_ship

/-- In ℚ the source's negativity reset is exactly `max 0`. -/
lemma if_lt_zero_eq_max (x : ℚ) : (if x < 0 then 0 else x) = max 0 x := by
  rcases lt_or_le x 0 with h | h
  · simp [h, max_eq_left h.le]
  · simp [not_lt.mpr h, max_eq_right h]

/-- Concrete parameter set used by witnesses and counterexamples. -/
def exampleParams : TPGshipParams :=
  { max_storage := 100
    electric_propulsion_max_storage_wh := 10
    elect_trust_efficiency := 1
    MCH_to_elect_efficiency := 1
    elect_to_MCH_efficiency := 1
    generator_output_w := 2
    max_speed := 10
    max_speed_power := 5
    generating_speed_kt := 5
    generator_num := 1 }

/-- C5: `calculate_power_consumption` returns
`max(0, hull_drag_work + generator_drag_work - wind_trust_work) /
elect_trust_efficiency`, where the hull-drag cubic uses the rated generation
speed whenever `GS_gene_judge = 1`; the result is never negative. -/
theorem calculate_power_consumption_spec (p : TPGshipParams) (g : ℕ)
    (speed_kt wind_trust_work generator_drag_unit_w time_step : ℚ)
    (heff : 0 < p.elect_trust_efficiency) :
    calculate_power_consumption p g speed_kt wind_trust_work
        generator_drag_unit_w time_step
      = max 0
          ((if g = 1 then
              p.max_speed_power * (p.generating_speed_kt / p.max_speed) ^ 3
                * time_step
            else
              p.max_speed_power * (speed_kt / p.max_speed) ^ 3 * time_step)
            + p.generator_num * generator_drag_unit_w * time_step
            - wind_trust_work) / p.elect_trust_efficiency
    ∧ 0 ≤ calculate_power_consumption p g speed_kt wind_trust_work
        generator_drag_unit_w time_step := by
  simp only [calculate_power_consumption]
  rw [if_lt_zero_eq_max]
  exact ⟨rfl, div_nonneg (le_max_left _ _) heff.le⟩

theorem calculate_power_consumption_spec_witness :
    0 ≤ calculate_power_consumption exampleParams 0 2 3 1 1 :=
  (calculate_power_consumption_spec exampleParams 0 2 3 1 1
    (by norm_num [exampleParams])).2

/-- C1 counterexample: the claim asserts `0 ≤ storage` after every tick, but
the MCH draw for a consumption shortfall is not clamped below.  With both
reservoirs empty and a positive consumption of 5 Wh the main storage ends at
-5 < 0. -/
theorem clamping_counterexample :
    (energy_state_update exampleParams 0 1 5 0 0 6).storage < 0 := by
  norm_num [energy_state_update, exampleParams]

/-- C1 (amended): after the energy-accounting tail of `get_next_ship_state`,
the propulsion buffer lies in `[0, electric_propulsion_max_storage_wh]` and
the main storage never exceeds `max_storage` (excess generation is discarded
by the final clamp); the lower bound `0 ≤ storage` is NOT enforced by the
code (see the counterexample). -/
theorem clamping_amended (p : TPGshipParams) (gg gl : ℕ)
    (cons S B ts : ℚ)
    (hB0 : 0 ≤ B) (hBm : B ≤ p.electric_propulsion_max_storage_wh)
    (hc : 0 ≤ cons) (heff : 0 < p.elect_trust_efficiency)
    (hout : 0 ≤ p.generator_output_w) (hts : 0 ≤ ts) :
    0 ≤ (energy_state_update p gg gl cons S B ts).electric_propulsion_storage_wh
    ∧ (energy_state_update p gg gl cons S B ts).electric_propulsion_storage_wh
        ≤ p.electric_propulsion_max_storage_wh
    ∧ (energy_state_update p gg gl cons S B ts).storage ≤ p.max_storage := by
  have hL : 0 ≤ cons * (gl : ℚ) / p.elect_trust_efficiency :=
    div_nonneg (mul_nonneg hc (Nat.cast_nonneg gl)) heff.le
  have hG : 0 ≤ p.generator_output_w * ts * (gg : ℚ) :=
    mul_nonneg (mul_nonneg hout hts) (Nat.cast_nonneg gg)
  simp only [energy_state_update]
  split_ifs with h1 h2 h3 h4 h5 h6 h7 h8 h9 h10 <;> dsimp only at * <;>
    refine ⟨by linarith, by linarith, by linarith⟩

theorem clamping_amended_witness :
    0 ≤ (energy_state_update exampleParams 1 0 0 50 3 6).electric_propulsion_storage_wh
    ∧ (energy_state_update exampleParams 1 0 0 50 3 6).electric_propulsion_storage_wh
        ≤ exampleParams.electric_propulsion_max_storage_wh
    ∧ (energy_state_update exampleParams 1 0 0 50 3 6).storage
        ≤ exampleParams.max_storage :=
  clamping_amended exampleParams 1 0 0 50 3 6 (by norm_num)
    (by norm_num [exampleParams]) le_rfl (by norm_num [exampleParams])
    (by norm_num [exampleParams]) (by norm_num)

/-- C2: for a tick on which the final capacity clamp does not fire, the
two-reservoir update conserves energy exactly, up to the declared efficiency
factors: `elect_trust_efficiency` divides the consumption, draws from main
storage go through `MCH_to_elect_efficiency`, surplus generation converted to
main storage is multiplied by `elect_to_MCH_efficiency`; the propulsion
buffer is drained first by consumption and topped up first by generation. -/
theorem energy_conservation (p : TPGshipParams) (gg gl : ℕ)
    (cons S B ts : ℚ)
    (hgg : gg = 0 ∨ gg = 1) (hgl : gl = 0 ∨ gl = 1) (hx : ¬(gl = 1 ∧ gg = 1))
    (hB0 : 0 ≤ B) (hBm : B ≤ p.electric_propulsion_max_storage_wh)
    (hout : 0 ≤ p.generator_output_w) (hts : 0 ≤ ts)
    (heffm : 0 < p.MCH_to_elect_efficiency)
    (hcap : S + (energy_state_update p gg gl cons S B ts).gene_elect
        ≤ p.max_storage) :
    (energy_state_update p gg gl cons S B ts).storage
        + (energy_state_update p gg gl cons S B ts).electric_propulsion_storage_wh
      = S + B
        + (if gg = 1 then
            (if p.generator_output_w * ts * (gg : ℚ)
                  < p.electric_propulsion_max_storage_wh - B then
               p.generator_output_w * ts * (gg : ℚ)
             else
               (p.electric_propulsion_max_storage_wh - B)
                 + (p.generator_output_w * ts * (gg : ℚ)
                     - (p.electric_propulsion_max_storage_wh - B))
                   * p.elect_to_MCH_efficiency)
           else 0)
        - (if gl = 1 then
            (if cons * (gl : ℚ) / p.elect_trust_efficiency ≤ B then
               cons * (gl : ℚ) / p.elect_trust_efficiency
             else
               B + (cons * (gl : ℚ) / p.elect_trust_efficiency - B)
                 / p.MCH_to_elect_efficiency)
           else 0)
    ∧ (gl = 1 →
        (energy_state_update p gg gl cons S B ts).electric_propulsion_storage_wh
          = max 0 (B - cons * (gl : ℚ) / p.elect_trust_efficiency))
    ∧ (gg = 1 ∧ ¬ gl = 1 →
        (energy_state_update p gg gl cons S B ts).electric_propulsion_storage_wh
          = min p.electric_propulsion_max_storage_wh
              (B + p.generator_output_w * ts * (gg : ℚ))) := by
  have hG : 0 ≤ p.generator_output_w * ts * (gg : ℚ) :=
    mul_nonneg (mul_nonneg hout hts) (Nat.cast_nonneg gg)
  rcases hgl with rfl | rfl
  · -- GS_loss_judge = 0
    rcases hgg with rfl | rfl
    · -- GS_gene_judge = 0 : idle tick
      simp only [energy_state_update] at hcap ⊢
      norm_num at hcap ⊢
      exact fun h => absurd h (not_lt.mpr hcap)
    · -- GS_gene_judge = 1 : generating tick
      norm_num at hG
      simp only [energy_state_update] at hcap ⊢
      norm_num at hcap ⊢
      split_ifs at hcap ⊢ with hb1 hb2 hb3 hb4 hb5 <;> dsimp only at *
      · exact absurd hb2 (not_lt.mpr hcap)
      · exact ⟨by ring, (min_eq_right (by linarith)).symm⟩
      · exact absurd hb4 (not_lt.mpr hcap)
      · exact ⟨by ring, (min_eq_left (by linarith)).symm⟩
      · exact absurd hb5 (not_lt.mpr hcap)
      · have hBeq : B = p.electric_propulsion_max_storage_wh :=
          le_antisymm hBm (le_of_not_lt hb3)
        rw [← hBeq]
        exact ⟨by ring, (min_eq_left (by linarith)).symm⟩
  · -- GS_loss_judge = 1, hence GS_gene_judge = 0 : consuming tick
    have hgg0 : gg = 0 := by
      rcases hgg with rfl | rfl
      · rfl
      · exact absurd ⟨rfl, rfl⟩ hx
    subst hgg0
    simp only [energy_state_update] at hcap ⊢
    norm_num at hcap ⊢
    split_ifs at hcap ⊢ with hc1 hc2 hc3 <;> dsimp only at *
    · exact absurd hc2 (not_lt.mpr hcap)
    · exact ⟨by ring, (max_eq_right (by linarith)).symm⟩
    · have hd : 0 < (cons / p.elect_trust_efficiency - B)
          / p.MCH_to_elect_efficiency :=
        div_pos (by linarith) heffm
      exact absurd hc3 (by push_neg; linarith)
    · exact ⟨by ring, (max_eq_left (by linarith)).symm⟩

theorem energy_conservation_witness :
    (energy_state_update exampleParams 1 0 0 50 3 6).storage
      + (energy_state_update exampleParams 1 0 0 50 3 6).electric_propulsion_storage_wh
      = 65 := by
  have h := (energy_conservation exampleParams 1 0 0 50 3 6
    (Or.inr rfl) (Or.inl rfl) (by norm_num) (by norm_num)
    (by norm_num [exampleParams]) (by norm_num [exampleParams]) (by norm_num)
    (by norm_num [exampleParams])
    (by norm_num [energy_state_update, exampleParams])).1
  norm_num [exampleParams] at h
  convert h using 2

end TPG_ship

namespace Support_ship

/-- `Support_ship.get_next_position` (support_ship.py lines 162-232); the
movement code is textually identical to `TPG_ship.get_next_position`. -/
def get_next_position (geo : ℚ × ℚ → ℚ × ℚ → ℚ) (speed_kt time_step : ℚ)
    (ship_lat ship_lon target_lat target_lon : ℚ) : ℚ × ℚ :=
  let goal_now_distance := geo (ship_lat, ship_lon) (target_lat, target_lon)
  let advance_distance := speed_kt * 1.852 * time_step
  let lat_difference := target_lat - ship_lat
  let lon_difference := target_lon - ship_lon
  let distance_ratio :=
    if goal_now_distance ≠ 0 then advance_distance / goal_now_distance else 0
  if distance_ratio < 1 ∧ 0 < distance_ratio then
    (lat_difference * distance_ratio + ship_lat,
     lon_difference * distance_ratio + ship_lon)
  else
    (target_lat, target_lon)

end Support_ship

/-- The guarded ratio of the source equals the total-division ratio of ℚ. -/
lemma guarded_ratio_eq (A D : ℚ) : (if D ≠ 0 then A / D else 0) = A / D := by
  by_cases h : D = 0 <;> simp [h]

/-- C10: for both the generation ship's and the support ship's
`get_next_position`, writing `D` for the geodesic distance to the target and
`A = speed_kmh * time_step` for the distance coverable this tick: if
`0 < A/D < 1` the position moves along the straight lat/lon segment by the
fraction `A/D`; in every other case (including `A ≥ D`, `D = 0`, and a zero
speed with a distant target) the position is set exactly to the target, so a
stationary vessel with a distant target is snapped to the target. -/
theorem get_next_position_spec (geo : ℚ × ℚ → ℚ × ℚ → ℚ)
    (speed_kt time_step s_lat s_lon t_lat t_lon : ℚ) :
    (0 < speed_kt * 1.852 * time_step / geo (s_lat, s_lon) (t_lat, t_lon)
        ∧ speed_kt * 1.852 * time_step / geo (s_lat, s_lon) (t_lat, t_lon) < 1 →
      TPG_ship.get_next_position geo speed_kt time_step s_lat s_lon t_lat t_lon
          = ((t_lat - s_lat)
                * (speed_kt * 1.852 * time_step / geo (s_lat, s_lon) (t_lat, t_lon))
                + s_lat,
             (t_lon - s_lon)
                * (speed_kt * 1.852 * time_step / geo (s_lat, s_lon) (t_lat, t_lon))
                + s_lon)
        ∧ Support_ship.get_next_position geo speed_kt time_step s_lat s_lon t_lat t_lon
          = TPG_ship.get_next_position geo speed_kt time_step s_lat s_lon t_lat t_lon)
    ∧ (¬(0 < speed_kt * 1.852 * time_step / geo (s_lat, s_lon) (t_lat, t_lon)
        ∧ speed_kt * 1.852 * time_step / geo (s_lat, s_lon) (t_lat, t_lon) < 1) →
      TPG_ship.get_next_position geo speed_kt time_step s_lat s_lon t_lat t_lon
          = (t_lat, t_lon)
        ∧ Support_ship.get_next_position geo speed_kt time_step s_lat s_lon t_lat t_lon
          = (t_lat, t_lon))
    ∧ (speed_kt = 0 →
      TPG_ship.get_next_position geo speed_kt time_step s_lat s_lon t_lat t_lon
          = (t_lat, t_lon)
        ∧ Support_ship.get_next_position geo speed_kt time_step s_lat s_lon t_lat t_lon
          = (t_lat, t_lon)) := by
  simp only [TPG_ship.get_next_position, Support_ship.get_next_position,
    guarded_ratio_eq]
  refine ⟨fun h => ?_, fun h => ?_, fun h => ?_⟩
  · rw [if_pos ⟨h.2, h.1⟩]
    exact ⟨rfl, trivial⟩
  · rw [if_neg (fun hc => h ⟨hc.2, hc.1⟩)]
    exact ⟨rfl, rfl⟩
  · subst h
    norm_num

theorem get_next_position_spec_witness :
    TPG_ship.get_next_position (fun _ _ => 100) 0 6 10 20 30 40 = (30, 40)
      ∧ Support_ship.get_next_position (fun _ _ => 100) 0 6 10 20 30 40
        = (30, 40) :=
  (get_next_position_spec (fun _ _ => 100) 0 6 10 20 30 40).2.2 rfl

namespace Forecaster

/-- A row of the ground-truth track table `original_data`
(typhoon number, unixtime, true coordinates). -/
structure TrackRow where
  typhoon_number : ℤ
  unixtime : ℤ
  lat : ℚ
  lon : ℚ
deriving DecidableEq, Repr

/-- A row of the forecast table produced by `create_forecast`. -/
structure ForecastRow where
  unixtime : ℤ
  typhoon_number : ℤ
  true_lat : ℚ
  true_lon : ℚ
  fore_lat : ℚ
  fore_lon : ℚ
deriving DecidableEq, Repr

/-- `Forecaster.create_forecast` (forecaster.py lines 181-265).

`sample` abstracts the per-row `random.gauss` draws around the true
coordinates (whose standard deviations are produced by the geodesic stepping
loops `cal_forecast_point_lat_sd` / `cal_forecast_point_lon_sd`); the row
count and the time window do not depend on it. -/
def create_forecast (sample : TrackRow → ℚ × ℚ)
    (forecast_time time_step current_time : ℤ)
    (original_data : List TrackRow) : List ForecastRow :=
  let unix_forecast_time := forecast_time * 3600
  let start_forecast_time := current_time + time_step * 3600
  let last_forecast_time := current_time + unix_forecast_time
  let forecast_true_data := original_data.filter (fun r =>
    decide (start_forecast_time ≤ r.unixtime)
      && decide (r.unixtime ≤ last_forecast_time))
  let rep_num := forecast_true_data.length
  if rep_num ≠ 0 then
    forecast_true_data.map (fun r =>
      { unixtime := r.unixtime
        typhoon_number := r.typhoon_number
        true_lat := r.lat
        true_lon := r.lon
        fore_lat := (sample r).1
        fore_lon := (sample r).2 })
  else []

/-- Degenerate sampler used in concrete evaluations. -/
def zeroSample : TrackRow → ℚ × ℚ := fun _ => (0, 0)

/-- A track point lying exactly on the left edge of the forecast window for
`time_step = 6`, `current_time = 0`. -/
def boundaryRow : TrackRow := ⟨1, 21600, 20, 140⟩

/-- C4 counterexample: the claimed window is the half-open interval
`(current_time + time_step*3600, current_time + forecast_time*3600]`, but the
source filter is `>=` on the left edge: for a single track point at exactly
`current_time + time_step*3600` no point lies in the claimed open window,
yet `create_forecast` returns a non-empty forecast. -/
theorem create_forecast_counterexample :
    ¬ ((0 : ℤ) + 6 * 3600 < boundaryRow.unixtime)
    ∧ create_forecast zeroSample 120 6 0 [boundaryRow] ≠ [] := by
  constructor
  · decide
  · have h : (create_forecast zeroSample 120 6 0 [boundaryRow]).length = 1 := rfl
    intro hc
    rw [hc] at h
    exact absurd h (by norm_num)

/-- C4 (amended): the forecast set contains exactly one row, in order, per
ground-truth track point whose unixtime lies in the CLOSED interval
`[current_time + time_step*3600, current_time + forecast_time*3600]`, and an
empty window yields an empty forecast set rather than an error. -/
theorem create_forecast_amended (sample : TrackRow → ℚ × ℚ)
    (forecast_time time_step current_time : ℤ)
    (original_data : List TrackRow) :
    (create_forecast sample forecast_time time_step current_time
        original_data).map
        (fun fr => (fr.typhoon_number, fr.unixtime, fr.true_lat, fr.true_lon))
      = (original_data.filter (fun r =>
          decide (current_time + time_step * 3600 ≤ r.unixtime)
            && decide (r.unixtime ≤ current_time + forecast_time * 3600))).map
          (fun r => (r.typhoon_number, r.unixtime, r.lat, r.lon))
    ∧ (original_data.filter (fun r =>
          decide (current_time + time_step * 3600 ≤ r.unixtime)
            && decide (r.unixtime ≤ current_time + forecast_time * 3600)) = []
        → create_forecast sample forecast_time time_step current_time
            original_data = []) := by
  simp only [create_forecast]
  constructor
  · split_ifs with h
    · rw [List.map_map]
      rfl
    · rw [not_not] at h
      rw [List.length_eq_zero] at h
      rw [h]
      rfl
  · intro h
    rw [h]
    simp

/-- A track point far outside any reasonable window. -/
def farRow : TrackRow := ⟨1, 999999999, 20, 140⟩

theorem create_forecast_amended_witness :
    create_forecast zeroSample 120 6 0 [farRow] = [] :=
  (create_forecast_amended zeroSample 120 6 0 [farRow]).2 rfl

end Forecaster

namespace Support_ship

/-- Mutable state of a `Support_ship` instance (support_ship.py): position,
storage, arrival flags, latched target (the source uses `np.nan` coordinates
for "no target", modelled as `none`). -/
structure State where
  supplybase_lat : ℚ
  supplybase_lon : ℚ
  max_storage : ℚ
  support_ship_speed : ℚ
  ship_lat : ℚ
  ship_lon : ℚ
  storage : ℚ
  ship_gene : ℕ
  arrived_supplybase : ℕ
  arrived_storagebase : ℕ
  target : Option (ℚ × ℚ)
  target_distance : Option ℚ
  speed_kt : ℚ
  brance_condition : String
deriving DecidableEq, Repr

/-- `Support_ship.go_storagebase_action` (support_ship.py lines 266-311). -/
def go_storagebase_action (geo : ℚ × ℚ → ℚ × ℚ → ℚ)
    (storage_base_position : ℚ × ℚ) (time_step : ℚ) (s : State) : State :=
  let s := { s with speed_kt := s.support_ship_speed,
                    target := some storage_base_position }
  let storagebase_ship_dis_time :=
    geo (s.ship_lat, s.ship_lon) storage_base_position / (s.speed_kt * 1.852)
  let s := { s with arrived_storagebase := 0, arrived_supplybase := 0 }
  if storagebase_ship_dis_time ≤ time_step then
    { s with brance_condition := "arrival at storage Base"
             arrived_storagebase := 1
             arrived_supplybase := 0
             ship_lat := storage_base_position.1
             ship_lon := storage_base_position.2
             speed_kt := 0 }
  else
    { s with brance_condition := "go to storage Base"
             arrived_storagebase := 0 }

/-- `Support_ship.go_supplybase_action` (support_ship.py lines 313-359). -/
def go_supplybase_action (geo : ℚ × ℚ → ℚ × ℚ → ℚ) (time_step : ℚ)
    (s : State) : State :=
  let s := { s with speed_kt := s.support_ship_speed,
                    target := some (s.supplybase_lat, s.supplybase_lon) }
  let uuv_ship_dis_time :=
    geo (s.ship_lat, s.ship_lon) (s.supplybase_lat, s.supplybase_lon)
      / (s.speed_kt * 1.852)
  let s := { s with arrived_supplybase := 0 }
  if uuv_ship_dis_time ≤ time_step then
    { s with brance_condition := "arrival at supply Base"
             ship_gene := 0
             arrived_supplybase := 1
             arrived_storagebase := 0
             ship_lat := s.supplybase_lat
             ship_lon := s.supplybase_lon
             target := none
             target_distance := none
             storage := 0
             speed_kt := 0 }
  else
    { s with brance_condition := "go to supply Base"
             arrived_supplybase := 0 }

/-- `Support_ship.get_next_ship_state` (support_ship.py lines 361-380):
choose the action from the two arrival flags, then, unless the target was
reset to nan, advance the position and record the target distance. -/
def get_next_ship_state (geo : ℚ × ℚ → ℚ × ℚ → ℚ)
    (storage_base_position : ℚ × ℚ) (time_step : ℚ) (s : State) : State :=
  let s1 :=
    if s.arrived_storagebase = 0 ∧ s.arrived_supplybase = 1 then
      go_storagebase_action geo storage_base_position time_step s
    else if s.arrived_storagebase = 1 ∧ s.arrived_supplybase = 0 then
      go_supplybase_action geo time_step s
    else if s.arrived_storagebase = 0 ∧ s.arrived_supplybase = 0 then
      go_storagebase_action geo storage_base_position time_step s
    else
      { s with arrived_supplybase := 0, arrived_storagebase := 0 }
  match s1.target with
  | some tgt =>
      let next := get_next_position geo s1.speed_kt time_step
        s1.ship_lat s1.ship_lon tgt.1 tgt.2
      { s1 with ship_lat := next.1
                ship_lon := next.2
                target_distance := some (geo (next.1, next.2) tgt) }
  | none => s1

end Support_ship

namespace Storage_base

/-- Mutable state of the `Storage_base` instance (storage_base.py). -/
structure State where
  locate : ℚ × ℚ
  max_storage : ℚ
  storage : ℚ
  call_num : ℕ
  call_ship1 : ℕ
  call_ship2 : ℕ
  call_per : ℚ
  brance_condition : String
  MCH_discharged_cargo_quantity : ℚ
deriving DecidableEq, Repr

/-- `Storage_base.storage_elect` (storage_base.py lines 112-129): receive the
generation ship's delivered payload `supply` (the ship-side reset of
`supply_elect` is not part of the base state). -/
def storage_elect (supply : ℚ) (b : State) : State :=
  { b with
    storage := b.storage + supply
    MCH_discharged_cargo_quantity := b.MCH_discharged_cargo_quantity + supply }

/-- `Storage_base.supply_elect` (storage_base.py lines 131-184): call a
support ship (priority: ship 1, then ship 2), advance the called ship, and
on its arrival clear the latch and transfer `min(storage, max_storage)`. -/
def supply_elect (geo : ℚ × ℚ → ℚ × ℚ → ℚ) (time_step : ℚ) (b : State)
    (s1 s2 : Support_ship.State) :
    State × Support_ship.State × Support_ship.State :=
  if s1.arrived_supplybase = 1 ∨ b.call_ship1 = 1 then
    let b := { b with brance_condition := "call ship1", call_ship1 := 1 }
    let s1 := Support_ship.get_next_ship_state geo b.locate time_step s1
    if s1.arrived_storagebase = 1 then
      let b := { b with call_ship1 := 0 }
      if b.storage ≤ s1.max_storage then
        let s1 := { s1 with storage := s1.storage + b.storage }
        let b := { b with storage := 0, call_num := b.call_num + 1 }
        (b, s1, s2)
      else
        let s1 := { s1 with storage := s1.max_storage }
        let b := { b with storage := b.storage - s1.max_storage
                          call_num := b.call_num + 1 }
        (b, s1, s2)
    else
      (b, s1, s2)
  else if s2.arrived_supplybase = 1 ∨ b.call_ship2 = 1 then
    let b := { b with brance_condition := "call ship2", call_ship2 := 1 }
    let s2 := Support_ship.get_next_ship_state geo b.locate time_step s2
    if s2.arrived_storagebase = 1 then
      let b := { b with call_ship2 := 0 }
      if b.storage ≤ s2.max_storage then
        let s2 := { s2 with storage := s2.storage + b.storage }
        let b := { b with storage := 0, call_num := b.call_num + 1 }
        (b, s1, s2)
      else
        let s2 := { s2 with storage := s2.max_storage }
        let b := { b with storage := b.storage - s2.max_storage
                          call_num := b.call_num + 1 }
        (b, s1, s2)
    else
      (b, s1, s2)
  else
    ({ b with brance_condition := "can\x27t call anyone" }, s1, s2)

/-- The "keep a support ship that is away from the supply base moving" block
at the start of `Storage_base.operation_base` (storage_base.py lines 203-211),
named so the theorems below can refer to the moved ship. -/
def premove (geo : ℚ × ℚ → ℚ × ℚ → ℚ) (time_step : ℚ) (locate : ℚ × ℚ)
    (s : Support_ship.State) : Support_ship.State :=
  if s.arrived_supplybase = 0 then
    Support_ship.get_next_ship_state geo locate time_step s
  else s

/-- `Storage_base.operation_base` (storage_base.py lines 186-217): receive
the generation ship's payload, keep any support ship that is away from the
supply base moving, and dispatch when the threshold
`storage >= support_ship_1.max_storage * call_per / 100` is met. -/
def operation_base (geo : ℚ × ℚ → ℚ × ℚ → ℚ) (time_step supply : ℚ)
    (b : State) (s1 s2 : Support_ship.State) :
    State × Support_ship.State × Support_ship.State :=
  let b := storage_elect supply b
  let b := { b with brance_condition := "while in storage" }
  let s1 := premove geo time_step b.locate s1
  let s2 := premove geo time_step b.locate s2
  let judge := s1.max_storage * (b.call_per / 100)
  if judge ≤ b.storage then
    supply_elect geo time_step b s1 s2
  else
    (b, s1, s2)

end Storage_base

/-- C7: when the (post-delivery) base storage meets the `call_per` threshold
against support-ship-1's capacity and both support ships are idle at the
supply base, the dispatch step takes the "call ship1" branch, latches
`call_ship1` (unless the called ship already completed arrival this very
tick, in which case the transfer step of C8 clears it), and leaves
support-ship-2 and its latch untouched; and the "call ship2" branch is taken
only when support-ship-1 is neither idle at the supply base nor already
latched. -/
theorem dispatch_priority (geo : ℚ × ℚ → ℚ × ℚ → ℚ) (ts supply : ℚ) :
    (∀ (b : Storage_base.State) (s1 s2 : Support_ship.State),
      s1.arrived_supplybase = 1 → s2.arrived_supplybase = 1 →
      s1.max_storage * (b.call_per / 100) ≤ b.storage + supply →
      (Storage_base.operation_base geo ts supply b s1 s2).1.brance_condition
          = "call ship1"
        ∧ ((Storage_base.operation_base geo ts supply b s1 s2).2.1.arrived_storagebase
              = 0 →
            (Storage_base.operation_base geo ts supply b s1 s2).1.call_ship1 = 1)
        ∧ (Storage_base.operation_base geo ts supply b s1 s2).2.2 = s2
        ∧ (Storage_base.operation_base geo ts supply b s1 s2).1.call_ship2
          = b.call_ship2)
    ∧ (∀ (b : Storage_base.State) (s1 s2 : Support_ship.State),
      (Storage_base.operation_base geo ts supply b s1 s2).1.brance_condition
          = "call ship2" →
      ¬(s1.arrived_supplybase = 1 ∨ b.call_ship1 = 1)) := by
  constructor
  · intro b s1 s2 h1 h2 hth
    simp only [Storage_base.operation_base, Storage_base.premove,
      Storage_base.storage_elect, Storage_base.supply_elect]
    simp [h1, h2, hth]
    split_ifs with ha hb <;> simp_all
  · intro b s1 s2 h hcon
    simp only [Storage_base.operation_base, Storage_base.premove,
      Storage_base.storage_elect, Storage_base.supply_elect] at h
    rcases hcon with hs | hl
    · simp [hs] at h
      split_ifs at h <;> simp_all
    · simp [hl] at h
      split_ifs at h <;> simp_all

/-- Distance oracle that makes every leg instantaneous (co-located points),
used for concrete evaluations. -/
def geoZero : ℚ × ℚ → ℚ × ℚ → ℚ := fun _ _ => 0

/-- Concrete storage-base state used by witnesses. -/
def exampleBase : Storage_base.State :=
  { locate := (24, 153)
    max_storage := 1000
    storage := 500
    call_num := 0
    call_ship1 := 0
    call_ship2 := 0
    call_per := 60
    brance_condition := "while in storage"
    MCH_discharged_cargo_quantity := 0 }

/-- Concrete support-ship state (idle at the supply base) used by witnesses. -/
def exampleShip : Support_ship.State :=
  { supplybase_lat := 30
    supplybase_lon := 130
    max_storage := 100
    support_ship_speed := 10
    ship_lat := 30
    ship_lon := 130
    storage := 0
    ship_gene := 0
    arrived_supplybase := 1
    arrived_storagebase := 0
    target := none
    target_distance := none
    speed_kt := 0
    brance_condition := "no action" }

theorem dispatch_priority_witness :
    (Storage_base.operation_base geoZero 6 0 exampleBase exampleShip
        exampleShip).1.brance_condition = "call ship1"
    ∧ ((Storage_base.operation_base geoZero 6 0 exampleBase exampleShip
          exampleShip).2.1.arrived_storagebase = 0 →
        (Storage_base.operation_base geoZero 6 0 exampleBase exampleShip
          exampleShip).1.call_ship1 = 1)
    ∧ (Storage_base.operation_base geoZero 6 0 exampleBase exampleShip
        exampleShip).2.2 = exampleShip
    ∧ (Storage_base.operation_base geoZero 6 0 exampleBase exampleShip
        exampleShip).1.call_ship2 = exampleBase.call_ship2 :=
  (dispatch_priority geoZero 6 0).1 exampleBase exampleShip exampleShip
    rfl rfl (by norm_num [exampleBase, exampleShip])

/-- The full base/support-ship subsystem state driven by
`Storage_base.operation_base` once per tick. -/
abbrev BaseSystem :=
  Storage_base.State × Support_ship.State × Support_ship.State

/-- One simulation tick of the subsystem; `input = (time_step, supply)`
where `supply` is the generation ship's delivery this tick. -/
def base_system_step (geo : ℚ × ℚ → ℚ × ℚ → ℚ) (input : ℚ × ℚ)
    (sys : BaseSystem) : BaseSystem :=
  Storage_base.operation_base geo input.1 input.2 sys.1 sys.2.1 sys.2.2

/-- The subsystem state after `n` ticks with per-tick inputs `inputs`. -/
def base_system_reach (geo : ℚ × ℚ → ℚ × ℚ → ℚ) (inputs : ℕ → ℚ × ℚ) :
    ℕ → BaseSystem → BaseSystem
  | 0, sys => sys
  | n + 1, sys =>
      base_system_step geo (inputs n) (base_system_reach geo inputs n sys)

/-- A support ship as constructed by `Support_ship.__init__` together with
its class-level defaults: empty, idle at the supply base, no target. -/
def ShipInit (s : Support_ship.State) : Prop :=
  s.storage = 0 ∧ s.ship_gene = 0 ∧ s.arrived_supplybase = 1
    ∧ s.arrived_storagebase = 0 ∧ s.target = none
    ∧ s.ship_lat = s.supplybase_lat ∧ s.ship_lon = s.supplybase_lon

/-- The storage base as constructed by `Storage_base.__init__` together with
its class-level defaults: empty, no calls latched. -/
def BaseInit (b : Storage_base.State) : Prop :=
  b.storage = 0 ∧ b.call_num = 0 ∧ b.call_ship1 = 0 ∧ b.call_ship2 = 0

/-- Simulation-start state of the subsystem. -/
def ValidInit (sys : BaseSystem) : Prop :=
  BaseInit sys.1 ∧ ShipInit sys.2.1 ∧ ShipInit sys.2.2

/-- Protocol invariant: a support ship that is idle at the supply base, or
whose call latch is set, carries no cargo. -/
def BaseInv (sys : BaseSystem) : Prop :=
  (sys.2.1.arrived_supplybase = 1 → sys.2.1.storage = 0)
  ∧ (sys.1.call_ship1 = 1 → sys.2.1.storage = 0)
  ∧ (sys.2.2.arrived_supplybase = 1 → sys.2.2.storage = 0)
  ∧ (sys.1.call_ship2 = 1 → sys.2.2.storage = 0)

/-- Field effects of one support-ship step: storage is only ever zeroed
(on arrival home), an idle-at-supply-base result carries no cargo, arrival
flags never end both set, and capacity is untouched. -/
lemma support_step_fields (geo : ℚ × ℚ → ℚ × ℚ → ℚ) (sb : ℚ × ℚ) (ts : ℚ)
    (s : Support_ship.State) :
    ((Support_ship.get_next_ship_state geo sb ts s).storage = s.storage
      ∨ (Support_ship.get_next_ship_state geo sb ts s).storage = 0)
    ∧ ((Support_ship.get_next_ship_state geo sb ts s).arrived_supplybase = 1 →
        (Support_ship.get_next_ship_state geo sb ts s).storage = 0)
    ∧ ((Support_ship.get_next_ship_state geo sb ts s).arrived_storagebase = 1 →
        (Support_ship.get_next_ship_state geo sb ts s).arrived_supplybase = 0)
    ∧ (Support_ship.get_next_ship_state geo sb ts s).max_storage
        = s.max_storage := by
  simp only [Support_ship.get_next_ship_state,
    Support_ship.go_storagebase_action, Support_ship.go_supplybase_action]
  rcases ht : s.target with _ | tgt <;> split_ifs <;> simp_all

/-- Cargo facts survive the pre-dispatch move of `operation_base`. -/
lemma premove_cargo (geo : ℚ × ℚ → ℚ × ℚ → ℚ) (ts : ℚ) (loc : ℚ × ℚ)
    (s : Support_ship.State) (latch : ℕ)
    (hs : s.arrived_supplybase = 1 → s.storage = 0)
    (hl : latch = 1 → s.storage = 0) :
    ((Storage_base.premove geo ts loc s).arrived_supplybase = 1 →
      (Storage_base.premove geo ts loc s).storage = 0)
    ∧ (latch = 1 → (Storage_base.premove geo ts loc s).storage = 0)
    ∧ (Storage_base.premove geo ts loc s).max_storage = s.max_storage := by
  unfold Storage_base.premove
  split_ifs with h
  · have F := support_step_fields geo loc ts s
    refine ⟨F.2.1, fun hlatch => ?_, F.2.2.2⟩
    rcases F.1 with he | he
    · rw [he]; exact hl hlatch
    · exact he
  · exact ⟨hs, hl, rfl⟩

/-- `supply_elect` preserves the cargo invariant, given it for its inputs. -/
lemma supply_elect_inv (geo : ℚ × ℚ → ℚ × ℚ → ℚ) (ts : ℚ)
    (b : Storage_base.State) (s1 s2 : Support_ship.State)
    (hs1 : s1.arrived_supplybase = 1 → s1.storage = 0)
    (hl1 : b.call_ship1 = 1 → s1.storage = 0)
    (hs2 : s2.arrived_supplybase = 1 → s2.storage = 0)
    (hl2 : b.call_ship2 = 1 → s2.storage = 0) :
    BaseInv (Storage_base.supply_elect geo ts b s1 s2) := by
  have F1 := support_step_fields geo b.locate ts s1
  have F2 := support_step_fields geo b.locate ts s2
  simp only [Storage_base.supply_elect, BaseInv]
  split_ifs with c1 c2 c3 c4 c5 c6 <;> dsimp only
  · -- ship1 called, arrives, base fits in the ship
    have hsup0 : (Support_ship.get_next_ship_state geo b.locate ts s1).arrived_supplybase = 0 :=
      F1.2.2.1 c2
    refine ⟨fun hx => ?_, fun hx => by exact absurd hx (by norm_num), hs2, hl2⟩
    rw [hsup0] at hx
    exact absurd hx (by norm_num)
  · -- ship1 called, arrives, overflow transfer
    have hsup0 : (Support_ship.get_next_ship_state geo b.locate ts s1).arrived_supplybase = 0 :=
      F1.2.2.1 c2
    refine ⟨fun hx => ?_, fun hx => by exact absurd hx (by norm_num), hs2, hl2⟩
    rw [hsup0] at hx
    exact absurd hx (by norm_num)
  · -- ship1 called, still in transit: latch stays, cargo stays 0
    have hz : s1.storage = 0 := c1.elim hs1 hl1
    have hz' : (Support_ship.get_next_ship_state geo b.locate ts s1).storage = 0 := by
      rcases F1.1 with he | he
      · rw [he]; exact hz
      · exact he
    exact ⟨F1.2.1, fun _ => hz', hs2, hl2⟩
  · -- ship2 called, arrives, base fits
    have hsup0 : (Support_ship.get_next_ship_state geo b.locate ts s2).arrived_supplybase = 0 :=
      F2.2.2.1 c5
    refine ⟨hs1, hl1, fun hx => ?_, fun hx => by exact absurd hx (by norm_num)⟩
    rw [hsup0] at hx
    exact absurd hx (by norm_num)
  · -- ship2 called, arrives, overflow transfer
    have hsup0 : (Support_ship.get_next_ship_state geo b.locate ts s2).arrived_supplybase = 0 :=
      F2.2.2.1 c5
    refine ⟨hs1, hl1, fun hx => ?_, fun hx => by exact absurd hx (by norm_num)⟩
    rw [hsup0] at hx
    exact absurd hx (by norm_num)
  · -- ship2 called, still in transit
    have hz : s2.storage = 0 := c4.elim hs2 hl2
    have hz' : (Support_ship.get_next_ship_state geo b.locate ts s2).storage = 0 := by
      rcases F2.1 with he | he
      · rw [he]; exact hz
      · exact he
    exact ⟨hs1, hl1, F2.2.1, fun _ => hz'⟩
  · -- nobody callable
    exact ⟨hs1, hl1, hs2, hl2⟩

/-- One subsystem tick preserves the cargo invariant. -/
lemma base_inv_step (geo : ℚ × ℚ → ℚ × ℚ → ℚ) (input : ℚ × ℚ)
    (sys : BaseSystem) (h : BaseInv sys) :
    BaseInv (base_system_step geo input sys) := by
  obtain ⟨b, s1, s2⟩ := sys
  obtain ⟨h1, h2, h3, h4⟩ := h
  have P1 := premove_cargo geo input.1 b.locate s1 b.call_ship1 h1 h2
  have P2 := premove_cargo geo input.1 b.locate s2 b.call_ship2 h3 h4
  simp only [base_system_step, Storage_base.operation_base,
    Storage_base.storage_elect] at *
  split_ifs with hth
  · exact supply_elect_inv geo input.1 _ _ _ P1.1 P1.2.1 P2.1 P2.2.1
  · exact ⟨P1.1, P1.2.1, P2.1, P2.2.1⟩

/-- The cargo invariant holds in every reachable subsystem state. -/
lemma base_inv_reach (geo : ℚ × ℚ → ℚ × ℚ → ℚ) (inputs : ℕ → ℚ × ℚ)
    (init : BaseSystem) (h : ValidInit init) (n : ℕ) :
    BaseInv (base_system_reach geo inputs n init) := by
  induction n with
  | zero =>
      exact ⟨fun _ => h.2.1.1, fun _ => h.2.1.1, fun _ => h.2.2.1,
        fun _ => h.2.2.1⟩
  | succ n ih => exact base_inv_step geo (inputs n) _ ih

/-- Arrival-tick transfer through the ship-1 branch of `supply_elect`:
exactly `min(storage, max_storage)` moves, the latch clears, and the call
counter increments. `s1` here is the ship as `supply_elect` receives it. -/
lemma supply_elect_transfer1 (geo : ℚ × ℚ → ℚ × ℚ → ℚ) (ts : ℚ)
    (b : Storage_base.State) (s1 s2 : Support_ship.State)
    (hz : s1.storage = 0)
    (hc : s1.arrived_supplybase = 1 ∨ b.call_ship1 = 1)
    (harr : (Support_ship.get_next_ship_state geo b.locate ts s1).arrived_storagebase
        = 1) :
    (Storage_base.supply_elect geo ts b s1 s2).2.1.storage
        = min b.storage s1.max_storage
    ∧ (Storage_base.supply_elect geo ts b s1 s2).1.storage
        = b.storage - min b.storage s1.max_storage
    ∧ (Storage_base.supply_elect geo ts b s1 s2).1.call_ship1 = 0
    ∧ (Storage_base.supply_elect geo ts b s1 s2).1.call_num = b.call_num + 1 := by
  have F := support_step_fields geo b.locate ts s1
  have hz' : (Support_ship.get_next_ship_state geo b.locate ts s1).storage = 0 :=
    F.1.elim (fun e => e.trans hz) id
  simp only [Storage_base.supply_elect]
  rw [if_pos hc]
  rw [if_pos harr]
  split_ifs with hle <;> dsimp only
  · rw [F.2.2.2] at hle
    refine ⟨?_, ?_, rfl, rfl⟩
    · rw [hz', zero_add, min_eq_left hle]
    · rw [min_eq_left hle, sub_self]
  · rw [F.2.2.2] at hle
    have hmin : min b.storage s1.max_storage = s1.max_storage :=
      min_eq_right (le_of_lt (lt_of_not_le hle))
    refine ⟨?_, ?_, rfl, rfl⟩
    · rw [F.2.2.2, hmin]
    · rw [F.2.2.2, hmin]

/-- Arrival-tick transfer through the ship-2 branch of `supply_elect`. -/
lemma supply_elect_transfer2 (geo : ℚ × ℚ → ℚ × ℚ → ℚ) (ts : ℚ)
    (b : Storage_base.State) (s1 s2 : Support_ship.State)
    (hz : s2.storage = 0)
    (hnot1 : ¬(s1.arrived_supplybase = 1 ∨ b.call_ship1 = 1))
    (hc : s2.arrived_supplybase = 1 ∨ b.call_ship2 = 1)
    (harr : (Support_ship.get_next_ship_state geo b.locate ts s2).arrived_storagebase
        = 1) :
    (Storage_base.supply_elect geo ts b s1 s2).2.2.storage
        = min b.storage s2.max_storage
    ∧ (Storage_base.supply_elect geo ts b s1 s2).1.storage
        = b.storage - min b.storage s2.max_storage
    ∧ (Storage_base.supply_elect geo ts b s1 s2).1.call_ship2 = 0
    ∧ (Storage_base.supply_elect geo ts b s1 s2).1.call_num = b.call_num + 1 := by
  have F := support_step_fields geo b.locate ts s2
  have hz' : (Support_ship.get_next_ship_state geo b.locate ts s2).storage = 0 :=
    F.1.elim (fun e => e.trans hz) id
  simp only [Storage_base.supply_elect]
  rw [if_neg hnot1, if_pos hc]
  rw [if_pos harr]
  split_ifs with hle <;> dsimp only
  · rw [F.2.2.2] at hle
    refine ⟨?_, ?_, rfl, rfl⟩
    · rw [hz', zero_add, min_eq_left hle]
    · rw [min_eq_left hle, sub_self]
  · rw [F.2.2.2] at hle
    have hmin : min b.storage s2.max_storage = s2.max_storage :=
      min_eq_right (le_of_lt (lt_of_not_le hle))
    refine ⟨?_, ?_, rfl, rfl⟩
    · rw [F.2.2.2, hmin]
    · rw [F.2.2.2, hmin]

/-- C8: in every reachable subsystem state, on the tick a called support
ship arrives at the storage base the base transfers exactly
`min(storage, max_storage)`: the ship ends the tick holding that amount
(it arrives empty — the cargo invariant, proved for all reachable states in
the first conjunct), the base's storage drops by the same amount (to 0 when
it fitted entirely), the corresponding call latch is cleared, and `call_num`
increments.  The base storage in question is the one the dispatch sees,
i.e. after this tick's delivery `supply` was received. -/
theorem transfer_exact (geo : ℚ × ℚ → ℚ × ℚ → ℚ) (inputs : ℕ → ℚ × ℚ) :
    (∀ init, ValidInit init →
      ∀ n, BaseInv (base_system_reach geo inputs n init))
    ∧ (∀ (ts supply : ℚ) (b : Storage_base.State)
        (s1 s2 : Support_ship.State), BaseInv (b, s1, s2) →
      (Storage_base.premove geo ts b.locate s1).max_storage * (b.call_per / 100)
          ≤ b.storage + supply →
      ((Storage_base.premove geo ts b.locate s1).arrived_supplybase = 1
          ∨ b.call_ship1 = 1) →
      (Support_ship.get_next_ship_state geo b.locate ts
          (Storage_base.premove geo ts b.locate s1)).arrived_storagebase = 1 →
      (Storage_base.operation_base geo ts supply b s1 s2).2.1.storage
          = min (b.storage + supply) s1.max_storage
        ∧ (Storage_base.operation_base geo ts supply b s1 s2).1.storage
          = (b.storage + supply) - min (b.storage + supply) s1.max_storage
        ∧ (Storage_base.operation_base geo ts supply b s1 s2).1.call_ship1 = 0
        ∧ (Storage_base.operation_base geo ts supply b s1 s2).1.call_num
          = b.call_num + 1)
    ∧ (∀ (ts supply : ℚ) (b : Storage_base.State)
        (s1 s2 : Support_ship.State), BaseInv (b, s1, s2) →
      (Storage_base.premove geo ts b.locate s1).max_storage * (b.call_per / 100)
          ≤ b.storage + supply →
      ¬((Storage_base.premove geo ts b.locate s1).arrived_supplybase = 1
          ∨ b.call_ship1 = 1) →
      ((Storage_base.premove geo ts b.locate s2).arrived_supplybase = 1
          ∨ b.call_ship2 = 1) →
      (Support_ship.get_next_ship_state geo b.locate ts
          (Storage_base.premove geo ts b.locate s2)).arrived_storagebase = 1 →
      (Storage_base.operation_base geo ts supply b s1 s2).2.2.storage
          = min (b.storage + supply) s2.max_storage
        ∧ (Storage_base.operation_base geo ts supply b s1 s2).1.storage
          = (b.storage + supply) - min (b.storage + supply) s2.max_storage
        ∧ (Storage_base.operation_base geo ts supply b s1 s2).1.call_ship2 = 0
        ∧ (Storage_base.operation_base geo ts supply b s1 s2).1.call_num
          = b.call_num + 1) := by
  refine ⟨fun init hv n => base_inv_reach geo inputs init hv n, ?_, ?_⟩
  · intro ts supply b s1 s2 hInv hth hc harr
    obtain ⟨h1, h2, h3, h4⟩ := hInv
    have P1 := premove_cargo geo ts b.locate s1 b.call_ship1 h1 h2
    have hz : (Storage_base.premove geo ts b.locate s1).storage = 0 :=
      hc.elim P1.1 P1.2.1
    have T := supply_elect_transfer1 geo ts
      { (Storage_base.storage_elect supply b) with
        brance_condition := "while in storage" }
      (Storage_base.premove geo ts b.locate s1)
      (Storage_base.premove geo ts b.locate s2) hz hc harr
    simp only [Storage_base.operation_base, Storage_base.storage_elect] at T ⊢
    rw [if_pos hth]
    rw [P1.2.2] at T
    exact T
  · intro ts supply b s1 s2 hInv hth hnot1 hc harr
    obtain ⟨h1, h2, h3, h4⟩ := hInv
    have P2 := premove_cargo geo ts b.locate s2 b.call_ship2 h3 h4
    have hz : (Storage_base.premove geo ts b.locate s2).storage = 0 :=
      hc.elim P2.1 P2.2.1
    have T := supply_elect_transfer2 geo ts
      { (Storage_base.storage_elect supply b) with
        brance_condition := "while in storage" }
      (Storage_base.premove geo ts b.locate s1)
      (Storage_base.premove geo ts b.locate s2) hz hnot1 hc harr
    simp only [Storage_base.operation_base, Storage_base.storage_elect] at T ⊢
    rw [if_pos hth]
    rw [P2.2.2] at T
    exact T

/-- Simulation-start storage base used by the C8 witness. -/
def exampleBaseEmpty : Storage_base.State :=
  { locate := (24, 153)
    max_storage := 1000
    storage := 0
    call_num := 0
    call_ship1 := 0
    call_ship2 := 0
    call_per := 60
    brance_condition := "while in storage"
    MCH_discharged_cargo_quantity := 0 }

theorem transfer_exact_witness :
    (Storage_base.operation_base geoZero 6 500 exampleBaseEmpty exampleShip
        exampleShip).2.1.storage
      = min (exampleBaseEmpty.storage + 500) exampleShip.max_storage
    ∧ (Storage_base.operation_base geoZero 6 500 exampleBaseEmpty exampleShip
        exampleShip).1.storage
      = (exampleBaseEmpty.storage + 500)
        - min (exampleBaseEmpty.storage + 500) exampleShip.max_storage
    ∧ (Storage_base.operation_base geoZero 6 500 exampleBaseEmpty exampleShip
        exampleShip).1.call_ship1 = 0
    ∧ (Storage_base.operation_base geoZero 6 500 exampleBaseEmpty exampleShip
        exampleShip).1.call_num = exampleBaseEmpty.call_num + 1 := by
  have hv : ValidInit (exampleBaseEmpty, exampleShip, exampleShip) :=
    ⟨⟨rfl, rfl, rfl, rfl⟩, ⟨rfl, rfl, rfl, rfl, rfl, rfl, rfl⟩,
      ⟨rfl, rfl, rfl, rfl, rfl, rfl, rfl⟩⟩
  have hInv := (transfer_exact geoZero (fun _ => (6, 500))).1
    (exampleBaseEmpty, exampleShip, exampleShip) hv 0
  exact (transfer_exact geoZero (fun _ => (6, 500))).2.1 6 500
    exampleBaseEmpty exampleShip exampleShip hInv
    (by norm_num [Storage_base.premove, exampleShip, exampleBaseEmpty])
    (Or.inl (by norm_num [Storage_base.premove, exampleShip, exampleBaseEmpty]))
    (by norm_num [Storage_base.premove, Support_ship.get_next_ship_state,
      Support_ship.go_storagebase_action, Support_ship.get_next_position,
      exampleShip, exampleBaseEmpty, geoZero])

namespace TPG_ship

open Forecaster (ForecastRow)

/-- The land-exclusion filter of `TPG_ship.get_target_data` (tpg_ship.py
lines 1222-1265): a forecast point is kept iff it lies in one of the
latitude-band / longitude-threshold sea regions. -/
def land_filter (r : ForecastRow) : Bool :=
  (decide (0 ≤ r.fore_lat) && decide (r.fore_lat ≤ 13)
      && decide (127.5 ≤ r.fore_lon))
  || (decide (13 ≤ r.fore_lat) && decide (r.fore_lat ≤ 15)
      && decide (125 ≤ r.fore_lon))
  || (decide (15 ≤ r.fore_lat) && decide (r.fore_lat ≤ 24)
      && decide (123 ≤ r.fore_lon))
  || (decide (24 ≤ r.fore_lat) && decide (r.fore_lat ≤ 26)
      && decide (126 ≤ r.fore_lon))
  || (decide (26 ≤ r.fore_lat) && decide (r.fore_lat ≤ 28)
      && decide (130.1 ≤ r.fore_lon))
  || (decide (28 ≤ r.fore_lat) && decide (r.fore_lat ≤ 32.2)
      && decide (132.4 ≤ r.fore_lon))
  || (decide (32.2 ≤ r.fore_lat) && decide (r.fore_lat ≤ 34)
      && decide (137.2 ≤ r.fore_lon))
  || (decide (34 ≤ r.fore_lat) && decide (r.fore_lat ≤ 41.2)
      && decide (143 ≤ r.fore_lon))
  || (decide (41.2 ≤ r.fore_lat) && decide (r.fore_lat ≤ 44)
      && decide (149 ≤ r.fore_lon))
  || (decide (44 ≤ r.fore_lat) && decide (r.fore_lat ≤ 50)
      && decide (156 ≤ r.fore_lon))
  || decide (50 ≤ r.fore_lat)

/-- The 5-day mean typhoon lifetime assumption, in unix seconds
(`TY_mean_time_to_live = 24 * 5` hours). -/
def TY_mean_time_to_live_unix : ℤ := 24 * 5 * 3600

/-- Is typhoon number `b` present in the forecast slice? (the source tests
`len(typhoon_data_forecast.filter(番号 == b)) == 0`). -/
def present (rows : List ForecastRow) (b : ℤ) : Bool :=
  !(rows.filter (fun r => decide (r.typhoon_number = b))).isEmpty

/-- Last forecast-observation unixtime of typhoon `b` in the slice: the
source sorts its rows by `unixtime` descending and takes row 0, i.e. the
maximum. -/
def maxUnixOf (rows : List ForecastRow) (b : ℤ) : ℤ :=
  (((rows.filter (fun r => decide (r.typhoon_number = b))).map
      (fun r => r.unixtime)).max?).getD 0

/-- `TY_start_bangou`: the source sorts by typhoon number ascending and takes
row 0, i.e. the minimum number in the slice. -/
def TY_start_bangou (rows : List ForecastRow) : ℤ :=
  ((rows.map (fun r => r.typhoon_number)).min?).getD 0

/-- The largest typhoon number in the slice (used only to size the fuel of
the while-loop below, which the source bounds by running off the data). -/
def TY_end_bangou (rows : List ForecastRow) : ℤ :=
  ((rows.map (fun r => r.typhoon_number)).max?).getD 0

/-- `n_unique("TYPHOON NUMBER")`. -/
def TY_num_forecast (rows : List ForecastRow) : ℕ :=
  ((rows.map (fun r => r.typhoon_number)).dedup).length

/-- The inner `while len(...) == 0` loop of `get_target_data`
(tpg_ship.py lines 1297-1303): advance the typhoon number past absent
("missing") numbers, recording them.  `fuel` bounds the search; the source
relies on a present number existing further on. -/
def skipToPresent (rows : List ForecastRow) : ℤ → ℕ → ℤ × List ℤ
  | b, 0 => (b, [])
  | b, fuel + 1 =>
      if present rows b then (b, [])
      else
        let r := skipToPresent rows (b + 1) fuel
        (r.1, b :: r.2)

/-- The `for i in range(TY_num_forecast)` loop of `get_target_data`
(tpg_ship.py lines 1292-1315): produce, per present typhoon number in
ascending order, its last forecast-observation time, collecting the missing
numbers encountered on the way. -/
def endTimesLoop (rows : List ForecastRow) (fuel : ℕ) :
    ℕ → ℤ → List ℤ × List ℤ
  | 0, _ => ([], [])
  | n + 1, b =>
      let s := skipToPresent rows b fuel
      let rest := endTimesLoop rows fuel n (s.1 + 1)
      (maxUnixOf rows s.1 :: rest.1, s.2 ++ rest.2)

/-- `TY_forecast_end_time` and `missing_num_list` of `get_target_data`. -/
def endTimesAndMissing (rows : List ForecastRow) : List ℤ × List ℤ :=
  endTimesLoop rows ((TY_end_bangou rows - TY_start_bangou rows).toNat + 1)
    (TY_num_forecast rows) (TY_start_bangou rows)

/-- `FORE_GENE_TIME` of one candidate row (tpg_ship.py lines 1337-1383):
look up the row's typhoon end time through the missing-number adjustment,
then either extrapolate to `occurrence + 5 days` (typhoon still alive at the
forecast horizon and younger than the mean lifetime) or use the last
observation.  `sTime` is the `TY_start_time_list` occurrence-time lookup. -/
def forecast_gene_time (sTime : ℤ → ℤ) (last_forecast_time : ℤ)
    (rows : List ForecastRow) (r : ForecastRow) : ℚ :=
  let em := endTimesAndMissing rows
  let adjustment_num :=
    (em.2.filter (fun m => decide (m ≤ r.typhoon_number))).length
  let data_reference_num :=
    (r.typhoon_number - TY_start_bangou rows - adjustment_num).toNat
  let end_time_forecast_TY := em.1.getD data_reference_num 0
  let start_time_forecast_TY := sTime r.typhoon_number
  if end_time_forecast_TY = last_forecast_time
      ∧ end_time_forecast_TY - start_time_forecast_TY
          < TY_mean_time_to_live_unix then
    ((start_time_forecast_TY + TY_mean_time_to_live_unix - r.unixtime : ℤ) : ℚ)
      / 3600
  else
    ((end_time_forecast_TY - r.unixtime : ℤ) : ℚ) / 3600

/-- Guarded ship speed in km/h (tpg_ship.py lines 1404-1406): the current
speed in km/h, with the maximum speed substituted when it is zero. -/
def guarded_speed_kmh (speed_kt max_speed : ℚ) : ℚ :=
  let s := speed_kt * 1.852
  if s = 0 then max_speed * 1.852 else s

/-- `ship_catch_time` of one row: `ceil(distance / speed_kmh)`. -/
def row_catch (geo : ℚ × ℚ → ℚ × ℚ → ℚ) (ship : ℚ × ℚ) (kmh : ℚ)
    (r : ForecastRow) : ℤ :=
  ⌈geo ship (r.fore_lat, r.fore_lon) / kmh⌉

/-- `typhoon_arrival_time` of one row: `int((unixtime - current_time)/3600)`
(Python `int()` truncates toward zero). -/
def row_arrival (current_time : ℤ) (r : ForecastRow) : ℤ :=
  Int.tdiv (r.unixtime - current_time) 3600

/-- `TY_CATCH_TIME`: the later of the typhoon's and the ship's arrival. -/
def row_true_catch (geo : ℚ × ℚ → ℚ × ℚ → ℚ) (ship : ℚ × ℚ) (kmh : ℚ)
    (current_time : ℤ) (r : ForecastRow) : ℤ :=
  if row_catch geo ship kmh r < row_arrival current_time r then
    row_arrival current_time r
  else
    row_catch geo ship kmh r

/-- `TIME_EFFECT`: the selection score. -/
def row_score (geo : ℚ × ℚ → ℚ × ℚ → ℚ) (ship : ℚ × ℚ) (kmh : ℚ)
    (forecast_weight : ℚ) (sTime : ℤ → ℤ) (last_forecast_time : ℤ)
    (current_time : ℤ) (rows : List ForecastRow) (r : ForecastRow) : ℚ :=
  forecast_gene_time sTime last_forecast_time rows r * forecast_weight
    - (row_true_catch geo ship kmh current_time r : ℚ) * (100 - forecast_weight)

/-- Maximum of `f` over a non-empty row list (the source computes it by
sorting descending and reading row 0; `[]` gives the junk value 0). -/
def maxOnQ (f : ForecastRow → ℚ) : List ForecastRow → ℚ
  | [] => 0
  | r :: rs => rs.foldl (fun acc x => max acc (f x)) (f r)

/-- Minimum of `f` over a non-empty row list (ascending sort, row 0). -/
def minOnZ (f : ForecastRow → ℤ) : List ForecastRow → ℤ
  | [] => 0
  | r :: rs => rs.foldl (fun acc x => min acc (f x)) (f r)

/-- `TPG_ship.get_target_data` (tpg_ship.py lines 1180-1499) as a partial
function of the forecast slice: land-exclusion filter, per-row expected
generation time, catch/arrival times, the `JUDGE_TIME_TIMES` feasibility
filter, and the score maximisation with its two tie-breaks.

`none` models the `ZeroDivisionError` the source raises when a surviving
row's arrival lead time `int((unixtime - current_time)/3600)` is zero
(`ship_catch_time / typhoon_arrival_time`), or when the guarded speed is
still zero (`distance / ship_speed_kmh`).  Where the source sorts and keeps
the tied head rows, this returns the set of fully tied rows unordered. -/
def get_target_data (geo : ℚ × ℚ → ℚ × ℚ → ℚ) (ship : ℚ × ℚ)
    (speed_kt max_speed forecast_weight judge_time_times : ℚ)
    (sTime : ℤ → ℤ) (forecast_time current_time : ℤ)
    (forecast_data : List ForecastRow) : Option (List ForecastRow) :=
  let last_forecast_time := current_time + 3600 * forecast_time
  let L := forecast_data.filter land_filter
  if L.isEmpty then
    some L
  else
    let kmh := guarded_speed_kmh speed_kt max_speed
    if kmh = 0 then none
    else if L.any (fun r => decide (row_arrival current_time r = 0)) then none
    else
      let score := row_score geo ship kmh forecast_weight sTime
        last_forecast_time current_time L
      let geneT := forecast_gene_time sTime last_forecast_time L
      let catchT := row_true_catch geo ship kmh current_time
      let survivors := L.filter (fun r =>
        decide ((row_catch geo ship kmh r : ℚ)
          / (row_arrival current_time r : ℚ) ≤ judge_time_times))
      if survivors.isEmpty then
        some survivors
      else
        let time_effect := maxOnQ score survivors
        let s1 := survivors.filter (fun r => decide (score r = time_effect))
        if 1 < s1.length then
          let gene_time_max := maxOnQ geneT s1
          let s2 := s1.filter (fun r => decide (geneT r = gene_time_max))
          if 1 < s2.length then
            let catch_min := minOnZ catchT s2
            some (s2.filter (fun r => decide (catchT r = catch_min)))
          else
            some s2
        else
          some s1

lemma le_foldl_max {α : Type} [LinearOrder α] (f : ForecastRow → α) :
    ∀ (rs : List ForecastRow) (acc : α),
      (acc ≤ rs.foldl (fun a x => max a (f x)) acc)
      ∧ ∀ x ∈ rs, f x ≤ rs.foldl (fun a x => max a (f x)) acc := by
  intro rs
  induction rs with
  | nil => exact fun acc => ⟨le_refl _, by simp⟩
  | cons y ys ih =>
      intro acc
      simp only [List.foldl_cons]
      refine ⟨le_trans (le_max_left _ _) (ih _).1, ?_⟩
      intro x hx
      rcases List.mem_cons.mp hx with rfl | hx
      · exact le_trans (le_max_right _ _) (ih _).1
      · exact (ih _).2 x hx

lemma foldl_max_attained {α : Type} [LinearOrder α] (f : ForecastRow → α) :
    ∀ (rs : List ForecastRow) (acc : α),
      rs.foldl (fun a x => max a (f x)) acc = acc
      ∨ ∃ x ∈ rs, rs.foldl (fun a x => max a (f x)) acc = f x := by
  intro rs
  induction rs with
  | nil => exact fun acc => Or.inl rfl
  | cons y ys ih =>
      intro acc
      simp only [List.foldl_cons]
      rcases ih (max acc (f y)) with he | ⟨x, hx, he⟩
      · rcases max_choice acc (f y) with hm | hm
        · exact Or.inl (he.trans hm)
        · exact Or.inr ⟨y, List.mem_cons_self y ys, he.trans hm⟩
      · exact Or.inr ⟨x, List.mem_cons_of_mem y hx, he⟩

lemma ge_foldl_min {α : Type} [LinearOrder α] (f : ForecastRow → α) :
    ∀ (rs : List ForecastRow) (acc : α),
      (rs.foldl (fun a x => min a (f x)) acc ≤ acc)
      ∧ ∀ x ∈ rs, rs.foldl (fun a x => min a (f x)) acc ≤ f x := by
  intro rs
  induction rs with
  | nil => exact fun acc => ⟨le_refl _, by simp⟩
  | cons y ys ih =>
      intro acc
      simp only [List.foldl_cons]
      refine ⟨le_trans (ih _).1 (min_le_left _ _), ?_⟩
      intro x hx
      rcases List.mem_cons.mp hx with rfl | hx
      · exact le_trans (ih _).1 (min_le_right _ _)
      · exact (ih _).2 x hx

lemma foldl_min_attained {α : Type} [LinearOrder α] (f : ForecastRow → α) :
    ∀ (rs : List ForecastRow) (acc : α),
      rs.foldl (fun a x => min a (f x)) acc = acc
      ∨ ∃ x ∈ rs, rs.foldl (fun a x => min a (f x)) acc = f x := by
  intro rs
  induction rs with
  | nil => exact fun acc => Or.inl rfl
  | cons y ys ih =>
      intro acc
      simp only [List.foldl_cons]
      rcases ih (min acc (f y)) with he | ⟨x, hx, he⟩
      · rcases min_choice acc (f y) with hm | hm
        · exact Or.inl (he.trans hm)
        · exact Or.inr ⟨y, List.mem_cons_self y ys, he.trans hm⟩
      · exact Or.inr ⟨x, List.mem_cons_of_mem y hx, he⟩

lemma maxOnQ_le (f : ForecastRow → ℚ) (l : List ForecastRow) (r : ForecastRow)
    (h : r ∈ l) : f r ≤ maxOnQ f l := by
  cases l with
  | nil => cases h
  | cons y ys =>
      rcases List.mem_cons.mp h with rfl | h
      · exact (le_foldl_max f ys (f r)).1
      · exact (le_foldl_max f ys (f y)).2 r h

lemma maxOnQ_mem (f : ForecastRow → ℚ) (l : List ForecastRow) (h : l ≠ []) :
    ∃ r ∈ l, maxOnQ f l = f r := by
  cases l with
  | nil => exact absurd rfl h
  | cons y ys =>
      rcases foldl_max_attained f ys (f y) with he | ⟨x, hx, he⟩
      · exact ⟨y, List.mem_cons_self y ys, he⟩
      · exact ⟨x, List.mem_cons_of_mem y hx, he⟩

lemma minOnZ_le (f : ForecastRow → ℤ) (l : List ForecastRow) (r : ForecastRow)
    (h : r ∈ l) : minOnZ f l ≤ f r := by
  cases l with
  | nil => cases h
  | cons y ys =>
      rcases List.mem_cons.mp h with rfl | h
      · exact (ge_foldl_min f ys (f r)).1
      · exact (ge_foldl_min f ys (f y)).2 r h

lemma minOnZ_mem (f : ForecastRow → ℤ) (l : List ForecastRow) (h : l ≠ []) :
    ∃ r ∈ l, minOnZ f l = f r := by
  cases l with
  | nil => exact absurd rfl h
  | cons y ys =>
      rcases foldl_min_attained f ys (f y) with he | ⟨x, hx, he⟩
      · exact ⟨y, List.mem_cons_self y ys, he⟩
      · exact ⟨x, List.mem_cons_of_mem y hx, he⟩

lemma mem_singleton_of_short {l : List ForecastRow} (hne : l ≠ [])
    (hlen : ¬ 1 < l.length) : ∀ a ∈ l, ∀ b ∈ l, a = b := by
  have hl : l.length = 1 := by
    have h0 : 0 < l.length := List.length_pos.mpr hne
    omega
  obtain ⟨x, hx⟩ := List.length_eq_one.mp hl
  subst hx
  intro a ha b hb
  rw [List.mem_singleton.mp ha, List.mem_singleton.mp hb]

/-- C3: on a non-empty land-filtered forecast slice whose rows all have a
non-zero arrival lead time (so no division fails) and a non-zero guarded
speed, `get_target_data` succeeds, every returned row passes the
`catch_time / arrival_time <= judge_time_times` feasibility test, maximises
`expected_generation_time * forecast_weight - effective_catch_time *
(100 - forecast_weight)` over all feasibility survivors with ties broken by
longest expected generation time then shortest effective catch time, and the
result is empty exactly when no row survives the feasibility filter. -/
theorem get_target_data_selects (geo : ℚ × ℚ → ℚ × ℚ → ℚ) (ship : ℚ × ℚ)
    (speed_kt max_speed fw jt : ℚ) (sTime : ℤ → ℤ) (ft c : ℤ)
    (rows : List ForecastRow)
    (hL : rows.filter land_filter ≠ [])
    (hnz : ∀ r ∈ rows.filter land_filter, row_arrival c r ≠ 0)
    (hkmh : guarded_speed_kmh speed_kt max_speed ≠ 0) :
    ∃ res, get_target_data geo ship speed_kt max_speed fw jt sTime ft c rows
        = some res
      ∧ (∀ r ∈ res,
          (row_catch geo ship (guarded_speed_kmh speed_kt max_speed) r : ℚ)
              / (row_arrival c r : ℚ) ≤ jt
          ∧ ∀ r' ∈ rows.filter land_filter,
              (row_catch geo ship (guarded_speed_kmh speed_kt max_speed) r' : ℚ)
                  / (row_arrival c r' : ℚ) ≤ jt →
              row_score geo ship (guarded_speed_kmh speed_kt max_speed) fw
                  sTime (c + 3600 * ft) c (rows.filter land_filter) r'
                ≤ row_score geo ship (guarded_speed_kmh speed_kt max_speed) fw
                  sTime (c + 3600 * ft) c (rows.filter land_filter) r
              ∧ (row_score geo ship (guarded_speed_kmh speed_kt max_speed) fw
                    sTime (c + 3600 * ft) c (rows.filter land_filter) r'
                  = row_score geo ship (guarded_speed_kmh speed_kt max_speed) fw
                    sTime (c + 3600 * ft) c (rows.filter land_filter) r →
                forecast_gene_time sTime (c + 3600 * ft)
                    (rows.filter land_filter) r'
                  ≤ forecast_gene_time sTime (c + 3600 * ft)
                    (rows.filter land_filter) r)
              ∧ (row_score geo ship (guarded_speed_kmh speed_kt max_speed) fw
                    sTime (c + 3600 * ft) c (rows.filter land_filter) r'
                  = row_score geo ship (guarded_speed_kmh speed_kt max_speed) fw
                    sTime (c + 3600 * ft) c (rows.filter land_filter) r →
                 forecast_gene_time sTime (c + 3600 * ft)
                    (rows.filter land_filter) r'
                  = forecast_gene_time sTime (c + 3600 * ft)
                    (rows.filter land_filter) r →
                row_true_catch geo ship (guarded_speed_kmh speed_kt max_speed)
                    c r
                  ≤ row_true_catch geo ship (guarded_speed_kmh speed_kt max_speed)
                    c r'))
      ∧ (res = [] ↔ (rows.filter land_filter).filter (fun r =>
            decide ((row_catch geo ship (guarded_speed_kmh speed_kt max_speed) r
              : ℚ) / (row_arrival c r : ℚ) ≤ jt)) = []) := by
  classical
  set L := rows.filter land_filter with hLdef
  set kmh := guarded_speed_kmh speed_kt max_speed with hkdef
  set score := row_score geo ship kmh fw sTime (c + 3600 * ft) c L with hsdef
  set geneT := forecast_gene_time sTime (c + 3600 * ft) L with hgdef
  set catchT := row_true_catch geo ship kmh c with hcdef
  set survivors := L.filter (fun r =>
    decide ((row_catch geo ship kmh r : ℚ) / (row_arrival c r : ℚ) ≤ jt))
    with hsurv
  have hLne : L.isEmpty = false := by
    simpa [List.isEmpty_iff] using hL
  have hany : (L.any (fun r => decide (row_arrival c r = 0))) = false := by
    rw [List.any_eq_false]
    intro r hr
    simpa using hnz r hr
  have hsub : ∀ r ∈ survivors, r ∈ L ∧
      (row_catch geo ship kmh r : ℚ) / (row_arrival c r : ℚ) ≤ jt := by
    intro r hr
    have := List.mem_filter.mp hr
    exact ⟨this.1, by simpa using this.2⟩
  have hmem_surv : ∀ r ∈ L,
      (row_catch geo ship kmh r : ℚ) / (row_arrival c r : ℚ) ≤ jt →
      r ∈ survivors := by
    intro r hr hle
    exact List.mem_filter.mpr ⟨hr, by simpa using hle⟩
  unfold get_target_data
  rw [← hLdef, ← hkdef]
  simp only [hLne, Bool.false_eq_true, if_false, if_neg hkmh, hany,
    ← hsdef, ← hgdef, ← hcdef, ← hsurv]
  by_cases hse : survivors.isEmpty
  · refine ⟨survivors, by rw [if_pos hse], ?_, ?_⟩
    · intro r hr
      rw [List.isEmpty_iff.mp hse] at hr
      cases hr
    · rw [List.isEmpty_iff.mp hse]
  · have hsne : survivors ≠ [] := fun h => by simp [h] at hse
    rw [if_neg (by simp [hse])]
    set te := maxOnQ score survivors with hte
    set s1 := survivors.filter (fun r => decide (score r = te)) with hs1def
    have hs1fact : ∀ r ∈ s1, r ∈ survivors ∧ score r = te := by
      intro r hr
      have h := List.mem_filter.mp hr
      exact ⟨h.1, by simpa using h.2⟩
    have hs1ne : s1 ≠ [] := by
      obtain ⟨r, hr, hre⟩ := maxOnQ_mem score survivors hsne
      intro hnil
      have hmem : r ∈ s1 := List.mem_filter.mpr ⟨hr, by simp [hre.symm]⟩
      rw [hnil] at hmem
      cases hmem
    by_cases h1 : 1 < s1.length
    · set gm := maxOnQ geneT s1 with hgm
      set s2 := s1.filter (fun r => decide (geneT r = gm)) with hs2def
      have hs2fact : ∀ r ∈ s2, r ∈ s1 ∧ geneT r = gm := by
        intro r hr
        have h := List.mem_filter.mp hr
        exact ⟨h.1, by simpa using h.2⟩
      have hs2ne : s2 ≠ [] := by
        obtain ⟨r, hr, hre⟩ := maxOnQ_mem geneT s1 hs1ne
        intro hnil
        have hmem : r ∈ s2 := List.mem_filter.mpr ⟨hr, by simp [hre.symm]⟩
        rw [hnil] at hmem
        cases hmem
      by_cases h2 : 1 < s2.length
      · set cm := minOnZ catchT s2 with hcm
        set s3 := s2.filter (fun r => decide (catchT r = cm)) with hs3def
        have hs3fact : ∀ r ∈ s3, r ∈ s2 ∧ catchT r = cm := by
          intro r hr
          have h := List.mem_filter.mp hr
          exact ⟨h.1, by simpa using h.2⟩
        have hs3ne : s3 ≠ [] := by
          obtain ⟨r, hr, hre⟩ := minOnZ_mem catchT s2 hs2ne
          intro hnil
          have hmem : r ∈ s3 := List.mem_filter.mpr ⟨hr, by simp [hre.symm]⟩
          rw [hnil] at hmem
          cases hmem
        refine ⟨s3, by rw [if_pos h1, if_pos h2], ?_,
          iff_of_false hs3ne hsne⟩
        intro r hr
        obtain ⟨hr2, hrc⟩ := hs3fact r hr
        obtain ⟨hr1, hrg⟩ := hs2fact r hr2
        obtain ⟨hrs, hrte⟩ := hs1fact r hr1
        refine ⟨(hsub r hrs).2, ?_⟩
        intro r' hr' hratio
        have hr's : r' ∈ survivors := hmem_surv r' hr' hratio
        refine ⟨hrte ▸ maxOnQ_le score survivors r' hr's, ?_, ?_⟩
        · intro hsc
          have hr's1 : r' ∈ s1 :=
            List.mem_filter.mpr ⟨hr's, by simp [hsc, hrte]⟩
          rw [hrg]
          exact maxOnQ_le geneT s1 r' hr's1
        · intro hsc hg
          have hr's1 : r' ∈ s1 :=
            List.mem_filter.mpr ⟨hr's, by simp [hsc, hrte]⟩
          have hr's2 : r' ∈ s2 :=
            List.mem_filter.mpr ⟨hr's1, by simp [hg, hrg]⟩
          rw [hrc]
          exact minOnZ_le catchT s2 r' hr's2
      · refine ⟨s2, by rw [if_pos h1, if_neg h2], ?_,
          iff_of_false hs2ne hsne⟩
        intro r hr
        obtain ⟨hr1, hrg⟩ := hs2fact r hr
        obtain ⟨hrs, hrte⟩ := hs1fact r hr1
        refine ⟨(hsub r hrs).2, ?_⟩
        intro r' hr' hratio
        have hr's : r' ∈ survivors := hmem_surv r' hr' hratio
        refine ⟨hrte ▸ maxOnQ_le score survivors r' hr's, ?_, ?_⟩
        · intro hsc
          have hr's1 : r' ∈ s1 :=
            List.mem_filter.mpr ⟨hr's, by simp [hsc, hrte]⟩
          rw [hrg]
          exact maxOnQ_le geneT s1 r' hr's1
        · intro hsc hg
          have hr's1 : r' ∈ s1 :=
            List.mem_filter.mpr ⟨hr's, by simp [hsc, hrte]⟩
          have hr's2 : r' ∈ s2 :=
            List.mem_filter.mpr ⟨hr's1, by simp [hg, hrg]⟩
          have heq : r' = r := mem_singleton_of_short hs2ne h2 r' hr's2 r hr
          rw [heq]
    · refine ⟨s1, by rw [if_neg h1], ?_, iff_of_false hs1ne hsne⟩
      intro r hr
      obtain ⟨hrs, hrte⟩ := hs1fact r hr
      refine ⟨(hsub r hrs).2, ?_⟩
      intro r' hr' hratio
      have hr's : r' ∈ survivors := hmem_surv r' hr' hratio
      refine ⟨hrte ▸ maxOnQ_le score survivors r' hr's, ?_, ?_⟩
      · intro hsc
        have hr's1 : r' ∈ s1 :=
          List.mem_filter.mpr ⟨hr's, by simp [hsc, hrte]⟩
        have heq : r' = r := mem_singleton_of_short hs1ne h1 r' hr's1 r hr
        rw [heq]
      · intro hsc hg
        have hr's1 : r' ∈ s1 :=
          List.mem_filter.mpr ⟨hr's, by simp [hsc, hrte]⟩
        have heq : r' = r := mem_singleton_of_short hs1ne h1 r' hr's1 r hr
        rw [heq]

/-- Concrete forecast row at sea used in witnesses (20°N 140°E,
unixtime 8200, typhoon number 1). -/
def seaRow : ForecastRow :=
  { unixtime := 8200
    typhoon_number := 1
    true_lat := 20
    true_lon := 140
    fore_lat := 20
    fore_lon := 140 }

theorem get_target_data_selects_witness :
    ∃ res, get_target_data geoZero (24, 153) 8 10 90 2 (fun _ => 0) 120 1000
        [seaRow] = some res := by
  obtain ⟨res, hres, -, -⟩ :=
    get_target_data_selects geoZero (24, 153) 8 10 90 2 (fun _ => 0) 120 1000
      [seaRow]
      (by norm_num [land_filter, seaRow, List.filter])
      (by
        intro r hr
        simp only [land_filter, seaRow, List.filter] at hr
        norm_num at hr
        subst hr
        norm_num [row_arrival, seaRow]
        decide)
      (by norm_num [guarded_speed_kmh])
  exact ⟨res, hres⟩

/-- A sea forecast row whose arrival lead time from `current_time = 1000` is
zero: `int((2800 - 1000)/3600) = 0`. -/
def zeroLeadRow : ForecastRow :=
  { unixtime := 2800
    typhoon_number := 1
    true_lat := 20
    true_lon := 140
    fore_lat := 20
    fore_lon := 140 }

/-- C9 counterexample: a surviving candidate whose arrival lead time is zero
is NOT skipped; the source divides `ship_catch_time / typhoon_arrival_time`
by it and raises `ZeroDivisionError` (modelled as `none`). -/
theorem degenerate_guard_counterexample :
    land_filter zeroLeadRow = true
    ∧ row_arrival 1000 zeroLeadRow = 0
    ∧ get_target_data geoZero (24, 153) 8 10 90 2 (fun _ => 0) 120 1000
        [zeroLeadRow] = none := by
  refine ⟨by norm_num [land_filter, zeroLeadRow], ?_, ?_⟩
  · simp only [row_arrival, zeroLeadRow]
    decide
  · simp only [get_target_data, land_filter, zeroLeadRow, guarded_speed_kmh,
      row_arrival, List.filter, List.any]
    norm_num
    decide

/-- C9 (amended): the zero-current-speed division is guarded by substituting
the maximum speed, but a zero arrival lead time is NOT guarded: if any
land-filtered candidate has `int((unixtime - current_time)/3600) = 0`, the
candidate evaluation divides by zero and `get_target_data` fails instead of
skipping the row.  (Forecast rows produced by `create_forecast` always have
`unixtime ≥ current_time + time_step*3600`, so the failure cannot occur in
the assembled simulation.) -/
theorem degenerate_guards_amended (geo : ℚ × ℚ → ℚ × ℚ → ℚ) (ship : ℚ × ℚ)
    (speed_kt max_speed fw jt : ℚ) (sTime : ℤ → ℤ) (ft c : ℤ) :
    guarded_speed_kmh 0 max_speed = max_speed * 1.852
    ∧ (∀ (rows : List ForecastRow) (r : ForecastRow),
        r ∈ rows.filter land_filter → row_arrival c r = 0 →
        get_target_data geo ship speed_kt max_speed fw jt sTime ft c rows
          = none) := by
  constructor
  · unfold guarded_speed_kmh
    norm_num
  · intro rows r hr harr
    have hne : (rows.filter land_filter).isEmpty = false := by
      simpa [List.isEmpty_iff] using List.ne_nil_of_mem hr
    have hany : ((rows.filter land_filter).any
        (fun x => decide (row_arrival c x = 0))) = true :=
      List.any_eq_true.mpr ⟨r, hr, by simp [harr]⟩
    unfold get_target_data
    simp only [hne, Bool.false_eq_true, if_false, hany, if_true]
    split_ifs <;> rfl

theorem degenerate_guards_amended_witness :
    get_target_data geoZero (24, 153) 8 10 90 2 (fun _ => 0) 120 1000
        [zeroLeadRow] = none :=
  (degenerate_guards_amended geoZero (24, 153) 8 10 90 2 (fun _ => 0)
      120 1000).2 [zeroLeadRow] zeroLeadRow
    (by norm_num [land_filter, zeroLeadRow, List.filter])
    (by simp only [row_arrival, zeroLeadRow]; decide)

lemma int_min?_spec {l : List ℤ} (h : l ≠ []) :
    ∃ m, l.min? = some m ∧ m ∈ l ∧ ∀ x ∈ l, m ≤ x := by
  cases hm : l.min? with
  | none => exact absurd (List.min?_eq_none_iff.mp hm) h
  | some m =>
      haveI : Std.Antisymm ((· : ℤ) ≤ ·) := ⟨fun h1 h2 => le_antisymm h1 h2⟩
      have := (List.min?_eq_some_iff (fun a => le_refl a) min_choice
        (fun _ _ _ => le_min_iff)).mp hm
      exact ⟨m, rfl, this.1, this.2⟩

lemma int_max?_spec {l : List ℤ} (h : l ≠ []) :
    ∃ m, l.max? = some m ∧ m ∈ l ∧ ∀ x ∈ l, x ≤ m := by
  cases hm : l.max? with
  | none => exact absurd (List.max?_eq_none_iff.mp hm) h
  | some m =>
      haveI : Std.Antisymm ((· : ℤ) ≤ ·) := ⟨fun h1 h2 => le_antisymm h1 h2⟩
      have := (List.max?_eq_some_iff (fun a => le_refl a) max_choice
        (fun _ _ _ => max_le_iff)).mp hm
      exact ⟨m, rfl, this.1, this.2⟩

lemma present_iff (rows : List ForecastRow) (x : ℤ) :
    present rows x = true ↔ ∃ r ∈ rows, r.typhoon_number = x := by
  unfold present
  rw [Bool.not_eq_true']
  constructor
  · intro h
    rcases he : rows.filter (fun r => decide (r.typhoon_number = x)) with _ | ⟨r, rest⟩
    · rw [he] at h
      simp at h
    · have hr : r ∈ rows.filter (fun r => decide (r.typhoon_number = x)) := by
        rw [he]
        exact List.mem_cons_self r rest
      have := List.mem_filter.mp hr
      exact ⟨r, this.1, by simpa using this.2⟩
  · rintro ⟨r, hr, hx⟩
    have hmem : r ∈ rows.filter (fun r => decide (r.typhoon_number = x)) :=
      List.mem_filter.mpr ⟨hr, by simp [hx]⟩
    rcases he : rows.filter (fun r => decide (r.typhoon_number = x)) with _ | _
    · rw [he] at hmem
      cases hmem
    · simp [he]

lemma skipToPresent_lb (rows : List ForecastRow) :
    ∀ (fuel : ℕ) (b : ℤ), b ≤ (skipToPresent rows b fuel).1
      ∧ ∀ m ∈ (skipToPresent rows b fuel).2, b ≤ m := by
  intro fuel
  induction fuel with
  | zero => exact fun b => ⟨le_refl b, by simp [skipToPresent]⟩
  | succ f ih =>
      intro b
      by_cases hb : present rows b
      · simp [skipToPresent, hb]
      · simp only [skipToPresent, hb, if_false, Bool.false_eq_true]
        refine ⟨le_trans (by omega) (ih (b + 1)).1, ?_⟩
        intro m hm
        rcases List.mem_cons.mp hm with rfl | hm
        · exact le_refl m
        · exact le_trans (by omega) ((ih (b + 1)).2 m hm)

lemma skipToPresent_spec (rows : List ForecastRow) :
    ∀ (fuel : ℕ) (b p : ℤ), b ≤ p → present rows p = true →
    (∀ x : ℤ, b ≤ x → x < p → present rows x = false) →
    (p - b).toNat < fuel →
    (skipToPresent rows b fuel).1 = p
    ∧ (∀ m ∈ (skipToPresent rows b fuel).2, b ≤ m ∧ m < p)
    ∧ ((skipToPresent rows b fuel).2.length = (p - b).toNat) := by
  intro fuel
  induction fuel with
  | zero => intro b p _ _ _ hf; omega
  | succ f ih =>
      intro b p hbp hp hnone hf
      by_cases hb : present rows b
      · have hpb : b = p := by
          by_contra hne
          have hlt : b < p := lt_of_le_of_ne hbp hne
          have hfalse := hnone b le_rfl hlt
          rw [hfalse] at hb
          exact Bool.false_ne_true hb
        subst hpb
        simp [skipToPresent, hb]
      · have hlt : b < p := by
          rcases lt_or_eq_of_le hbp with h | h
          · exact h
          · subst h
            exact absurd hp hb
        have hrec := ih (b + 1) p (by omega) hp
          (fun x hx1 hx2 => hnone x (by omega) hx2) (by omega)
        simp only [skipToPresent, hb, if_false, Bool.false_eq_true]
        refine ⟨hrec.1, ?_, ?_⟩
        · intro m hm
          rcases List.mem_cons.mp hm with rfl | hm
          · exact ⟨le_refl m, hlt⟩
          · have := hrec.2.1 m hm
            exact ⟨by omega, this.2⟩
        · simp only [List.length_cons, hrec.2.2]
          omega

lemma endTimesLoop_missing_lb (rows : List ForecastRow) (fuel : ℕ) :
    ∀ (n : ℕ) (b : ℤ), ∀ m ∈ (endTimesLoop rows fuel n b).2, b ≤ m := by
  intro n
  induction n with
  | zero => intro b m hm; simp [endTimesLoop] at hm
  | succ n ih =>
      intro b m hm
      simp only [endTimesLoop] at hm
      rcases List.mem_append.mp hm with hm | hm
      · exact (skipToPresent_lb rows fuel b).2 m hm
      · have h1 := (skipToPresent_lb rows fuel b).1
        have h2 := ih ((skipToPresent rows b fuel).1 + 1) m hm
        omega

lemma endTimesLoop_spec (rows : List ForecastRow) (fuel : ℕ) :
    ∀ (n : ℕ) (b p : ℤ) (k : ℕ), b ≤ p → present rows p = true →
    (((Finset.Ico b p).filter (fun x => present rows x = true)).card = k) →
    k < n → (p - b).toNat < fuel →
    ((endTimesLoop rows fuel n b).1.getD k 0 = maxUnixOf rows p)
    ∧ (((endTimesLoop rows fuel n b).2.filter
        (fun m => decide (m ≤ p))).length = (p - b).toNat - k) := by
  intro n
  induction n with
  | zero => intro b p k _ _ _ hk _; omega
  | succ n ih =>
      intro b p k hbp hp hcard hk hfuel
      set S := (Finset.Icc b p).filter (fun x => present rows x = true) with hS
      have hSne : S.Nonempty :=
        ⟨p, by simp [hS, Finset.mem_filter, Finset.mem_Icc, hbp, hp]⟩
      set p0 := S.min' hSne with hp0
      have hp0S : p0 ∈ S := Finset.min'_mem S hSne
      have hp0b : b ≤ p0 := (Finset.mem_Icc.mp (Finset.mem_filter.mp hp0S).1).1
      have hp0p : p0 ≤ p := (Finset.mem_Icc.mp (Finset.mem_filter.mp hp0S).1).2
      have hp0pres : present rows p0 = true := (Finset.mem_filter.mp hp0S).2
      have hnone : ∀ x : ℤ, b ≤ x → x < p0 → present rows x = false := by
        intro x hbx hxp0
        by_contra hx
        have hxt : present rows x = true := by
          revert hx
          cases present rows x <;> simp
        have hxS : x ∈ S := Finset.mem_filter.mpr
          ⟨Finset.mem_Icc.mpr ⟨hbx, le_trans (le_of_lt hxp0) hp0p⟩, hxt⟩
        have := S.min'_le x hxS
        omega
      have hskip := skipToPresent_spec rows fuel b p0 hp0b hp0pres hnone
        (by omega)
      rcases Nat.eq_zero_or_pos k with hk0 | hkpos
      · subst hk0
        have hpp : p0 = p := by
          by_contra hne
          have hlt : p0 < p := lt_of_le_of_ne hp0p hne
          have hmem : p0 ∈ (Finset.Ico b p).filter
              (fun x => present rows x = true) :=
            Finset.mem_filter.mpr ⟨Finset.mem_Ico.mpr ⟨hp0b, hlt⟩, hp0pres⟩
          have := Finset.card_pos.mpr ⟨p0, hmem⟩
          omega
        constructor
        · simp only [endTimesLoop, List.getD_cons_zero]
          rw [hskip.1, hpp]
        · simp only [endTimesLoop, List.filter_append, List.length_append]
          have h1 : ((skipToPresent rows b fuel).2.filter
              (fun m => decide (m ≤ p)))
              = (skipToPresent rows b fuel).2 := by
            apply List.filter_eq_self.mpr
            intro m hm
            have := hskip.2.1 m hm
            simp only [decide_eq_true_eq]
            omega
          have h2 : ((endTimesLoop rows fuel n
              ((skipToPresent rows b fuel).1 + 1)).2.filter
              (fun m => decide (m ≤ p))) = [] := by
            apply List.filter_eq_nil_iff.mpr
            intro m hm
            have hlb := endTimesLoop_missing_lb rows fuel n
              ((skipToPresent rows b fuel).1 + 1) m hm
            have h3 := hskip.1
            simp only [decide_eq_true_eq]
            omega
          rw [h1, h2, hskip.2.2, hpp]
          simp
      · obtain ⟨k', rfl⟩ : ∃ k', k = k' + 1 := ⟨k - 1, by omega⟩
        have hlt : p0 < p := by
          by_contra hge
          have hpp : p0 = p := le_antisymm hp0p (le_of_not_lt hge)
          have hempty : (Finset.Ico b p).filter
              (fun x => present rows x = true) = ∅ := by
            ext x
            simp only [Finset.mem_filter, Finset.mem_Ico,
              Finset.not_mem_empty, iff_false, not_and]
            rintro ⟨hbx, hxp⟩
            rw [hnone x hbx (by omega)]
            simp
          rw [hempty] at hcard
          simp at hcard
        have hsplit : (Finset.Ico b p).filter (fun x => present rows x = true)
            = insert p0 ((Finset.Ico (p0 + 1) p).filter
                (fun x => present rows x = true)) := by
          ext x
          simp only [Finset.mem_filter, Finset.mem_Ico, Finset.mem_insert]
          constructor
          · rintro ⟨⟨hbx, hxp⟩, hpx⟩
            by_cases hx0 : x = p0
            · exact Or.inl hx0
            · refine Or.inr ⟨⟨?_, hxp⟩, hpx⟩
              by_contra hcon
              have hxlt : x < p0 := by omega
              rw [hnone x hbx hxlt] at hpx
              exact Bool.false_ne_true hpx
          · rintro (rfl | ⟨⟨h1x, hxp⟩, hpx⟩)
            · exact ⟨⟨hp0b, hlt⟩, hp0pres⟩
            · exact ⟨⟨by omega, hxp⟩, hpx⟩
        have hnotmem : p0 ∉ (Finset.Ico (p0 + 1) p).filter
            (fun x => present rows x = true) := by
          simp [Finset.mem_Ico]
        have hcard' : ((Finset.Ico (p0 + 1) p).filter
            (fun x => present rows x = true)).card = k' := by
          rw [hsplit, Finset.card_insert_of_not_mem hnotmem] at hcard
          omega
        have hb1p : p0 + 1 ≤ p := by omega
        have hk'n : k' < n := by omega
        have hfuel' : (p - (p0 + 1)).toNat < fuel := by omega
        have hrec := ih (p0 + 1) p k' hb1p hp hcard' hk'n hfuel'
        constructor
        · simp only [endTimesLoop, List.getD_cons_succ]
          rw [hskip.1]
          exact hrec.1
        · simp only [endTimesLoop, List.filter_append, List.length_append]
          have h1 : ((skipToPresent rows b fuel).2.filter
              (fun m => decide (m ≤ p)))
              = (skipToPresent rows b fuel).2 := by
            apply List.filter_eq_self.mpr
            intro m hm
            have := hskip.2.1 m hm
            simp only [decide_eq_true_eq]
            omega
          have hk'le : k' ≤ (p - (p0 + 1)).toNat := by
            rw [← hcard', ← Int.card_Ico]
            exact Finset.card_filter_le _ _
          rw [h1, hskip.2.2, hskip.1, hrec.2]
          omega

/-- The missing-number bookkeeping of `get_target_data` is correct: for a
candidate row, the `TY_forecast_end_time` entry looked up through
`data_reference_num` is exactly its typhoon's last observation time. -/
lemma endTimes_lookup (rows : List ForecastRow) (r : ForecastRow)
    (hr : r ∈ rows) :
    (endTimesAndMissing rows).1.getD
        (r.typhoon_number - TY_start_bangou rows
          - (((endTimesAndMissing rows).2.filter
              (fun m => decide (m ≤ r.typhoon_number))).length : ℤ)).toNat 0
      = maxUnixOf rows r.typhoon_number := by
  have hrows : rows ≠ [] := List.ne_nil_of_mem hr
  have hbs : rows.map (fun x => x.typhoon_number) ≠ [] := by
    intro h
    rw [List.map_eq_nil_iff] at h
    exact hrows h
  obtain ⟨mn, hmn, hmnmem, hmnle⟩ := int_min?_spec hbs
  obtain ⟨mx, hmx, hmxmem, hmxle⟩ := int_max?_spec hbs
  have hstart : TY_start_bangou rows = mn := by
    unfold TY_start_bangou
    rw [hmn]
    rfl
  have hend : TY_end_bangou rows = mx := by
    unfold TY_end_bangou
    rw [hmx]
    rfl
  have hpmem : r.typhoon_number ∈ rows.map (fun x => x.typhoon_number) :=
    List.mem_map_of_mem _ hr
  have hpres : present rows r.typhoon_number = true :=
    (present_iff rows r.typhoon_number).mpr ⟨r, hr, rfl⟩
  have hbp : mn ≤ r.typhoon_number := hmnle _ hpmem
  have hpmx : r.typhoon_number ≤ mx := hmxle _ hpmem
  set p := r.typhoon_number with hpdef
  set k := ((Finset.Ico mn p).filter
    (fun x => present rows x = true)).card with hkdef
  have hkle : k ≤ (p - mn).toNat := by
    rw [hkdef, ← Int.card_Ico]
    exact Finset.card_filter_le _ _
  have hkn : k < TY_num_forecast rows := by
    have hsubset : (Finset.Ico mn p).filter (fun x => present rows x = true)
        ⊆ ((rows.map (fun x => x.typhoon_number)).toFinset).erase p := by
      intro x hx
      obtain ⟨hico, hpx⟩ := Finset.mem_filter.mp hx
      obtain ⟨rr, hrr, hrx⟩ := (present_iff rows x).mp hpx
      refine Finset.mem_erase.mpr ⟨ne_of_lt (Finset.mem_Ico.mp hico).2, ?_⟩
      rw [List.mem_toFinset]
      exact hrx ▸ List.mem_map_of_mem _ hrr
    have h1 : k ≤ (((rows.map (fun x => x.typhoon_number)).toFinset).erase
        p).card := Finset.card_le_card hsubset
    have hpfin : p ∈ (rows.map (fun x => x.typhoon_number)).toFinset :=
      List.mem_toFinset.mpr hpmem
    have h2 := Finset.card_erase_of_mem hpfin
    have h3 := List.card_toFinset (rows.map (fun x => x.typhoon_number))
    have h4 : 0 < ((rows.map (fun x => x.typhoon_number)).toFinset).card :=
      Finset.card_pos.mpr ⟨p, hpfin⟩
    unfold TY_num_forecast
    omega
  have hfuel : (p - mn).toNat < (TY_end_bangou rows
      - TY_start_bangou rows).toNat + 1 := by
    rw [hstart, hend]
    omega
  have L := endTimesLoop_spec rows
    ((TY_end_bangou rows - TY_start_bangou rows).toNat + 1)
    (TY_num_forecast rows) mn p k hbp hpres rfl hkn hfuel
  unfold endTimesAndMissing
  rw [hstart] at L ⊢
  rw [L.2]
  have hidx : (p - mn - (((p - mn).toNat - k : ℕ) : ℤ)).toNat = k := by
    omega
  rw [hidx]
  exact L.1

/-- C6: the expected generation time of a candidate row equals
`(occurrence_time + 5 days - candidate_timestamp)/3600` exactly when the
typhoon's last forecast observation time equals the forecast horizon's
closing time and its observed lifetime is below the 5-day mean; otherwise it
equals `(last_observation_time - candidate_timestamp)/3600`. -/
theorem gene_time_spec (sTime : ℤ → ℤ) (last_forecast_time : ℤ)
    (rows : List ForecastRow) (r : ForecastRow) (hr : r ∈ rows) :
    forecast_gene_time sTime last_forecast_time rows r
      = if maxUnixOf rows r.typhoon_number = last_forecast_time
            ∧ maxUnixOf rows r.typhoon_number - sTime r.typhoon_number
              < TY_mean_time_to_live_unix then
          ((sTime r.typhoon_number + TY_mean_time_to_live_unix
              - r.unixtime : ℤ) : ℚ) / 3600
        else
          ((maxUnixOf rows r.typhoon_number - r.unixtime : ℤ) : ℚ) / 3600 := by
  simp only [forecast_gene_time]
  rw [endTimes_lookup rows r hr]

theorem gene_time_spec_witness :
    forecast_gene_time (fun _ => 0) 8200 [seaRow] seaRow = 423800 / 3600 := by
  rw [gene_time_spec (fun _ => 0) 8200 [seaRow] seaRow
    (List.mem_singleton_self seaRow)]
  norm_num [maxUnixOf, seaRow, TY_mean_time_to_live_unix, List.filter]
